import Mathlib

/-!
# Verification of the TickTick MCP adapter against its specification

Shallow embedding of the repository's validation layer, date/time
normalizer, resilient request engine and domain façade
(`src/types/ticktick.ts`, `src/utils/validators.ts`,
`src/utils/date-utils.ts`, and the `TickTickClient` revision containing
the retrying `makeAuthenticatedRequest`), together with theorems settling
the specification's claims.

Modelling conventions:
* JavaScript strings are Lean `String`s; `undefined`/optional values are
  `Option`; JS truthiness of an optional string (`undefined` and `""` are
  falsy) is `jsTruthy`.
* Functions that `throw` return `Except`.
* The platform's `fetch`, `JSON.parse` and the IANA time-zone database are
  environment parameters of the embedded functions.
* `Date` semantics (ECMA-262 time values) are modelled exactly: a time
  value is an `Int` of milliseconds since the epoch; `toISOString` and
  ISO-format parsing are defined below via proleptic-Gregorian civil-date
  arithmetic.
-/

deriving instance DecidableEq for Except

/-! ## JavaScript string primitives -/

/-- List prefix test. -/
def startsWithList : List Char → List Char → Bool
  | [], _ => true
  | _ :: _, [] => false
  | a :: as, b :: bs => a = b && startsWithList as bs

/-- List infix test. -/
def infixOfList (needle : List Char) : List Char → Bool
  | [] => needle.isEmpty
  | c :: rest => startsWithList needle (c :: rest) || infixOfList needle rest

/-- JS `String.prototype.includes`. -/
def containsSub (s sub : String) : Bool := infixOfList sub.toList s.toList

/-- JS truthiness of an optional string (`undefined` and `""` are falsy). -/
def jsTruthy : Option String → Bool
  | some s => s ≠ ""
  | none => false

/-- Decimal digit test, `[0-9]`. -/
def isDig (c : Char) : Bool := '0' ≤ c ∧ c ≤ '9'

/-- Value of a decimal digit character. -/
def digVal (c : Char) : Nat := c.toNat - 48

/-- Hexadecimal digit test. -/
def isHexDig (c : Char) : Bool :=
  isDig c ∨ ('a' ≤ c ∧ c ≤ 'f') ∨ ('A' ≤ c ∧ c ≤ 'F')

/-- JS whitespace (the characters relevant to `parseInt` trimming). -/
def isJsSpace (c : Char) : Bool :=
  c = ' ' ∨ c = '\t' ∨ c = '\n' ∨ c = '\r'

/-- Digits-to-number, most significant first. -/
def natOfDigs (l : List Char) : Nat := l.foldl (fun a c => 10 * a + digVal c) 0

/-- Hex digits-to-number. -/
def natOfHexDigs (l : List Char) : Nat :=
  l.foldl (fun a c =>
    16 * a + (if isDig c then digVal c
              else if 'a' ≤ c ∧ c ≤ 'f' then c.toNat - 87
              else c.toNat - 55)) 0

/-- JS `parseInt(s)` (radix unspecified): skip leading whitespace, optional
sign, then either `0x`/`0X` hex digits or a maximal decimal digit prefix;
`NaN` (here `none`) if no digit is found. -/
def parseIntJs (s : String) : Option Int :=
  let l := s.toList.dropWhile isJsSpace
  let (sign, l) : Int × List Char :=
    match l with
    | '-' :: rest => (-1, rest)
    | '+' :: rest => (1, rest)
    | rest => (1, rest)
  match l with
  | '0' :: 'x' :: rest =>
      let digs := rest.takeWhile isHexDig
      if digs = [] then some 0 else some (sign * natOfHexDigs digs)
  | '0' :: 'X' :: rest =>
      let digs := rest.takeWhile isHexDig
      if digs = [] then some 0 else some (sign * natOfHexDigs digs)
  | l =>
      let digs := l.takeWhile isDig
      if digs = [] then none else some (sign * natOfDigs digs)


/-- JS `String.prototype.trim` (ASCII whitespace). -/
def trimJs (s : String) : String :=
  (((s.toList.dropWhile isJsSpace).reverse.dropWhile isJsSpace).reverse).asString

/-- `substring(0, n)`. -/
def takeStr (n : Nat) (s : String) : String := (s.toList.take n).asString

/-- `String.prototype.startsWith`. -/
def startsWithStr (s pre : String) : Bool := startsWithList pre.toList s.toList

/-- `String.prototype.endsWith` for a single-character suffix. -/
def endsWithChar (s : String) (c : Char) : Bool := s.toList.getLast? = some c

/-- `String.prototype.split` on a single-character separator. -/
def splitChar (c : Char) : List Char → List (List Char)
  | [] => [[]]
  | a :: rest =>
      match splitChar c rest with
      | [] => [[]]
      | h :: t => if a = c then [] :: h :: t else (a :: h) :: t

/-- `split` on a string, as used by the engine and the RRULE validator. -/
def splitStr (c : Char) (s : String) : List String :=
  (splitChar c s.toList).map List.asString

/-! ## ECMA-262 `Date` model: proleptic-Gregorian civil arithmetic

A JS `Date` holds an integer time value `t` of milliseconds since the
epoch (valid iff `|t| <= 8.64e15`).  `civilFromDays`/`daysFromCivil`
convert between epoch day numbers and civil `(year, month, day)` triples
using Euclidean-affine steps (century, then year-in-century, then the
153-per-5-months pattern); they agree with `toISOString`'s year/month/day
fields and with the time value denoted by a parsed ISO date string. -/

def centuryOf (doe : Nat) : Nat := (4 * doe + 3) / 146097

def d1Of (doe : Nat) : Nat := doe - 146097 * centuryOf doe / 4

def y1Of (doe : Nat) : Nat := (4 * d1Of doe + 3) / 1461

def d2Of (doe : Nat) : Nat := d1Of doe - 1461 * y1Of doe / 4

def mpOf (doe : Nat) : Nat := (5 * d2Of doe + 2) / 153

def ddOf (doe : Nat) : Nat := d2Of doe - (153 * mpOf doe + 2) / 5 + 1

/-- Month (1..12) of a day-of-era. -/
def cfdM (doe : Nat) : Nat := if mpOf doe < 10 then mpOf doe + 3 else mpOf doe - 9

/-- Year-of-era (0..400) of a day-of-era, including the March-shift fixup. -/
def cfdY (doe : Nat) : Nat :=
  100 * centuryOf doe + y1Of doe + (if 10 ≤ mpOf doe then 1 else 0)

def civilFromDays (z : Int) : Int × Nat × Nat :=
  let zd := z + 719468
  let doe := (zd % 146097).toNat
  (zd / 146097 * 400 + cfdY doe, cfdM doe, ddOf doe)

def daysFromCivil (y : Int) (m d : Nat) : Int :=
  let y' := y - (if m ≤ 2 then 1 else 0)
  let yc := (y' % 400).toNat
  let mp := if 3 ≤ m then m - 3 else m + 9
  let doy := (153 * mp + 2) / 5 + d - 1
  y' / 400 * 146097 +
    (146097 * (yc / 100) / 4 + 1461 * (yc % 100) / 4 + doy : Nat) - 719468

/-! ### Formatting (`toISOString`) and parsing of ISO date strings -/

/-- Decimal digit character of `n % 10`. -/
def dig (n : Nat) : Char := Char.ofNat (48 + n % 10)

/-- Two-digit zero-padded field. -/
def pad2 (n : Nat) : List Char := [dig (n / 10), dig n]

/-- Three-digit zero-padded field. -/
def pad3 (n : Nat) : List Char := [dig (n / 100), dig (n / 10), dig n]

/-- Four-digit zero-padded field. -/
def pad4 (n : Nat) : List Char := [dig (n / 1000), dig (n / 100), dig (n / 10), dig n]

/-- Six-digit zero-padded field (expanded years). -/
def pad6 (n : Nat) : List Char :=
  [dig (n / 100000), dig (n / 10000), dig (n / 1000), dig (n / 100),
    dig (n / 10), dig n]

/-- Read exactly two decimal digits. -/
def rd2 : List Char → Option (Nat × List Char)
  | a :: b :: rest =>
      if isDig a && isDig b then some (10 * digVal a + digVal b, rest) else none
  | _ => none

/-- Read exactly four decimal digits. -/
def rd4 : List Char → Option (Nat × List Char)
  | a :: b :: c :: d :: rest =>
      if isDig a && isDig b && isDig c && isDig d then
        some (1000 * digVal a + 100 * digVal b + 10 * digVal c + digVal d, rest)
      else none
  | _ => none

/-- Read exactly six decimal digits. -/
def rd6 : List Char → Option (Nat × List Char)
  | a :: b :: c :: d :: e :: f :: rest =>
      if isDig a && isDig b && isDig c && isDig d && isDig e && isDig f then
        some (100000 * digVal a + 10000 * digVal b + 1000 * digVal c +
          100 * digVal d + 10 * digVal e + digVal f, rest)
      else none
  | _ => none

/-- Year field of an ISO date string: four digits, or an
ECMA expanded year (sign and six digits, `-000000` being invalid). -/
def readYearPart (l : List Char) : Option (Int × List Char) :=
  match l with
  | c :: rest =>
      if c = '+' then
        match rd6 rest with
        | some (y, rest2) => some ((y : Int), rest2)
        | none => none
      else if c = '-' then
        match rd6 rest with
        | some (y, rest2) => if y = 0 then none else some ((-(y : Int)), rest2)
        | none => none
      else
        match rd4 l with
        | some (y, rest2) => some ((y : Int), rest2)
        | none => none
  | [] => none

/-- Optional `-MM` and `-DD` fields (both default to 1). -/
def readMonthDay (l : List Char) : Option (Nat × Nat × List Char) :=
  match l with
  | '-' :: rest =>
      match rd2 rest with
      | some (m, rest2) =>
          match rest2 with
          | '-' :: rest3 =>
              (match rd2 rest3 with
               | some (d, rest4) => some (m, d, rest4)
               | none => none)
          | _ => some (m, 1, rest2)
      | none => none
  | _ => some (1, 1, l)

/-- Fractional-second field after the dot: one to three digits, scaled to
milliseconds. -/
def readFrac (l : List Char) : Option (Nat × List Char) :=
  match l.takeWhile isDig with
  | [a] => some (100 * digVal a, l.drop 1)
  | [a, b] => some (100 * digVal a + 10 * digVal b, l.drop 2)
  | [a, b, c] => some (100 * digVal a + 10 * digVal b + digVal c, l.drop 3)
  | _ => none

/-- Time-zone offset terminating the string: `Z`, `±HHMM` or `±HH:MM`
(bounded as V8 bounds them); result in minutes. -/
def readOffset (l : List Char) : Option Int :=
  match l with
  | ['Z'] => some 0
  | [si, a, b, c, d] =>
      if (si = '+' ∨ si = '-') ∧ isDig a ∧ isDig b ∧ isDig c ∧ isDig d then
        let hh := 10 * digVal a + digVal b
        let mm := 10 * digVal c + digVal d
        if hh ≤ 23 ∧ mm ≤ 59 then
          some ((if si = '-' then -1 else 1) * (hh * 60 + mm : Nat))
        else none
      else none
  | [si, a, b, ':', c, d] =>
      if (si = '+' ∨ si = '-') ∧ isDig a ∧ isDig b ∧ isDig c ∧ isDig d then
        let hh := 10 * digVal a + digVal b
        let mm := 10 * digVal c + digVal d
        if hh ≤ 23 ∧ mm ≤ 59 then
          some ((if si = '-' then -1 else 1) * (hh * 60 + mm : Nat))
        else none
      else none
  | _ => none

/-- Time-of-day with offset: absent (date-only forms denote UTC midnight)
or `T HH:mm [:ss [.fff]] offset`; an offset-less date-time (interpreted in
the host's local zone by JS) is outside this model and parses to `none`. -/
def readTime (l : List Char) : Option (Nat × Nat × Nat × Nat × Int) :=
  match l with
  | [] => some (0, 0, 0, 0, 0)
  | 'T' :: rest =>
      match rd2 rest with
      | some (h, rest1) =>
          (match rest1 with
           | ':' :: rest2 =>
               (match rd2 rest2 with
                | some (mi, rest3) =>
                    (match rest3 with
                     | ':' :: rest4 =>
                         (match rd2 rest4 with
                          | some (s, rest5) =>
                              (match rest5 with
                               | '.' :: rest6 =>
                                   (match readFrac rest6 with
                                    | some (ms, rest7) =>
                                        (match readOffset rest7 with
                                         | some off => some (h, mi, s, ms, off)
                                         | none => none)
                                    | none => none)
                               | _ =>
                                   (match readOffset rest5 with
                                    | some off => some (h, mi, s, 0, off)
                                    | none => none))
                          | none => none)
                     | _ =>
                         (match readOffset rest3 with
                          | some off => some (h, mi, 0, 0, off)
                          | none => none))
                | none => none)
           | _ => none)
      | none => none
  | _ => none

/-- Validity and time-value computation for parsed fields (ECMA-262 / V8:
month and day must denote a real proleptic-Gregorian calendar date, hour
24 only at exactly midnight, and the result must be a valid time value). -/
def finishParse (y : Int) (m d h mi s ms : Nat) (off : Int) : Option Int :=
  if 1 ≤ m ∧ m ≤ 12 ∧ 1 ≤ d ∧
      civilFromDays (daysFromCivil y m d) = (y, m, d) ∧
      (h ≤ 23 ∨ (h = 24 ∧ mi = 0 ∧ s = 0 ∧ ms = 0)) ∧ mi ≤ 59 ∧ s ≤ 59 then
    let t := daysFromCivil y m d * 86400000 +
      ((h * 3600000 + mi * 60000 + s * 1000 + ms : Nat) : Int) - off * 60000
    if t.natAbs ≤ 8640000000000000 then some t else none
  else none

/-- The ISO-format date parser over characters. -/
def parseIsoChars (l : List Char) : Option Int :=
  match readYearPart l with
  | none => none
  | some (y, l1) =>
    match readMonthDay l1 with
    | none => none
    | some (m, d, l2) =>
      match readTime l2 with
      | none => none
      | some (h, mi, s, ms, off) => finishParse y m d h mi s ms off

/-- `new Date(string)` for the ISO-with-offset subset this model covers:
the resulting time value, or `none` for an invalid date. -/
def parseJsDate (s : String) : Option Int := parseIsoChars s.toList

/-- The character content of `Date.prototype.toISOString` minus the final
`Z`. -/
def isoCoreChars (t : Int) : List Char :=
  let cv := civilFromDays (t / 86400000)
  let msod := (t % 86400000).toNat
  (if 0 ≤ cv.1 ∧ cv.1 ≤ 9999 then pad4 cv.1.toNat
   else (if cv.1 < 0 then ['-'] else ['+']) ++ pad6 cv.1.natAbs) ++
  ('-' :: (pad2 cv.2.1 ++ ('-' :: (pad2 cv.2.2 ++ ('T' ::
  (pad2 (msod / 3600000) ++ (':' :: (pad2 (msod / 60000 % 60) ++ (':' ::
  (pad2 (msod / 1000 % 60) ++ ('.' :: pad3 (msod % 1000))))))))))))

/-- `Date.prototype.toISOString` (throws a RangeError on an invalid time
value). -/
def toISOString (t : Int) : Except String String :=
  if 8640000000000000 < t.natAbs then .error "RangeError: Invalid time value"
  else .ok ((isoCoreChars t).asString ++ "Z")

/-! ### The repository's ISO-8601 regular expressions -/

/-- Head common to both ISO-8601 regexes:
`\\d{4}-\\d{2}-\\d{2}T\\d{2}:\\d{2}:\\d{2}`; yields the tail on a match. -/
def isoRegexHead : List Char → Option (List Char)
  | y1 :: y2 :: y3 :: y4 :: '-' :: m1 :: m2 :: '-' :: d1 :: d2 :: 'T' ::
      h1 :: h2 :: ':' :: i1 :: i2 :: ':' :: s1 :: s2 :: rest =>
      if isDig y1 && isDig y2 && isDig y3 && isDig y4 && isDig m1 && isDig m2
          && isDig d1 && isDig d2 && isDig h1 && isDig h2 && isDig i1
          && isDig i2 && isDig s1 && isDig s2 then some rest else none
  | _ => none

/-- Anchored tail `([+-]\\d{4}|Z)$`. -/
def isoRegexOffsetEnd : List Char → Bool
  | ['Z'] => true
  | [si, a, b, c, d] =>
      (si = '+' || si = '-') && isDig a && isDig b && isDig c && isDig d
  | _ => false

/-- `date-utils.ts` regex:
`/^\\d{4}-\\d{2}-\\d{2}T\\d{2}:\\d{2}:\\d{2}(\\.\\d{1,3})?([+-]\\d{4}|Z)$/`. -/
def isoRegexDU (l : List Char) : Bool :=
  match isoRegexHead l with
  | some rest =>
      match rest with
      | '.' :: rest2 =>
          let digs := rest2.takeWhile isDig
          decide (1 ≤ digs.length) && decide (digs.length ≤ 3) &&
            isoRegexOffsetEnd (rest2.drop digs.length)
      | _ => isoRegexOffsetEnd rest
  | none => false

/-- `validators.ts` regex (no millisecond group):
`/^\\d{4}-\\d{2}-\\d{2}T\\d{2}:\\d{2}:\\d{2}([+-]\\d{4}|Z)$/`. -/
def isoRegexV (l : List Char) : Bool :=
  match isoRegexHead l with
  | some rest => isoRegexOffsetEnd rest
  | none => false

/-! ## `src/utils/date-utils.ts`: the date/time normalizer -/

namespace DateUtils

/-- `validateISO8601Date` (date-utils.ts variant, milliseconds allowed):
non-empty, matches the regex, and parses to a real instant. -/
def validateISO8601Date (date : String) : Bool :=
  date ≠ "" && isoRegexDU date.toList && (parseJsDate date).isSome

/-- `formatDateToISO8601` (date-utils.ts variant) on a string argument. -/
def formatDateToISO8601 (date : String) : Except String String :=
  if validateISO8601Date date then
    .ok (if endsWithChar date 'Z' then date.dropRight 1 ++ "+0000" else date)
  else
    match parseJsDate date with
    | some t =>
        if 8640000000000000 < t.natAbs then .error ("Невалидная дата: " ++ date)
        else .ok ((isoCoreChars t).asString ++ "+0000")
    | none => .error ("Невалидная дата: " ++ date)

/-- `formatDateToISO8601` (date-utils.ts variant) on a `Date` argument
holding time value `t`. -/
def formatDateToISO8601OfDate (t : Int) : Except String String :=
  if 8640000000000000 < t.natAbs then .error "Невалидная дата"
  else .ok ((isoCoreChars t).asString ++ "+0000")

/-- `timestampToISO8601`: `formatDateToISO8601(new Date(timestamp))`. -/
def timestampToISO8601 (timestamp : Int) : Except String String :=
  formatDateToISO8601OfDate timestamp

/-- `iso8601ToTimestamp`: validates, then `new Date(isoDate).getTime()`. -/
def iso8601ToTimestamp (isoDate : String) : Except String Int :=
  if validateISO8601Date isoDate then .ok ((parseJsDate isoDate).getD 0)
  else .error ("Невалидная ISO 8601 дата: " ++ isoDate)

/-- `validateDateRange` on string-or-absent arguments: truthy-absent checks
first, then parses both and compares time values, throwing if either is
`NaN`. -/
def validateDateRange (startDate dueDate : Option String) :
    Except String Bool :=
  if ¬jsTruthy startDate ∨ ¬jsTruthy dueDate then .ok true
  else
    match parseJsDate (startDate.getD ""), parseJsDate (dueDate.getD "") with
    | some s, some d => .ok (decide (s ≤ d))
    | _, _ => .error "Невалидные даты для проверки диапазона"

end DateUtils

namespace Validators

/-- `validateISO8601Date` (validators.ts variant, no milliseconds
group in its regex). -/
def validateISO8601Date (date : String) : Bool :=
  date ≠ "" && isoRegexV date.toList && (parseJsDate date).isSome

/-- `formatDateToISO8601` (validators.ts variant) on a string argument —
the version the `TickTickClient` uses for task/project date fields. -/
def formatDateToISO8601 (date : String) : Except String String :=
  if validateISO8601Date date then
    .ok (if endsWithChar date 'Z' then date.dropRight 1 ++ "+0000" else date)
  else
    match parseJsDate date with
    | some t =>
        if 8640000000000000 < t.natAbs then .error ("Невалидная дата: " ++ date)
        else .ok ((isoCoreChars t).asString ++ "+0000")
    | none => .error ("Невалидная дата: " ++ date)

end Validators

/-! ## `src/types/ticktick.ts`: priority mapping and error taxonomy -/

/-- `type Priority = "none" | "low" | "medium" | "high"`. -/
inductive Priority where
  | none
  | low
  | medium
  | high
deriving DecidableEq, Repr

/-- `PRIORITY_MAP`: `{none: 0, low: 1, medium: 3, high: 5}`. -/
def PRIORITY_MAP : Priority → Nat
  | .none => 0
  | .low => 1
  | .medium => 3
  | .high => 5

/-- `PRIORITY_REVERSE_MAP`: `{0: "none", 1: "low", 3: "medium", 5: "high"}`;
a lookup at any other ordinal is `undefined` (`none`). -/
def PRIORITY_REVERSE_MAP (n : Nat) : Option Priority :=
  if n = 0 then some .none
  else if n = 1 then some .low
  else if n = 3 then some .medium
  else if n = 5 then some .high
  else Option.none

/-- `enum TickTickErrorCode` (note: there is no parse-error member). -/
inductive TickTickErrorCode where
  | UNAUTHORIZED
  | FORBIDDEN
  | NOT_FOUND
  | RATE_LIMITED
  | SERVER_ERROR
  | NETWORK_ERROR
  | VALIDATION_ERROR
  | TIMEOUT_ERROR
deriving DecidableEq, Repr

/-- `class TickTickApiError` (the `details` payload is modelled as the raw
diagnostic string it would carry). -/
structure TickTickApiError where
  message : String
  status : Option Nat
  code : Option TickTickErrorCode
  details : Option String
  retryable : Bool
deriving DecidableEq, Repr

/-- `TickTickApiError.fromHttpStatus`. -/
def TickTickApiError.fromHttpStatus (status : Nat) (message : Option String)
    (details : Option String) : TickTickApiError :=
  if status = 401 then
    ⟨message.getD "Неавторизованный доступ. Проверьте токен доступа.",
      some status, some .UNAUTHORIZED, details, false⟩
  else if status = 403 then
    ⟨message.getD "Доступ запрещен. Недостаточно прав.",
      some status, some .FORBIDDEN, details, false⟩
  else if status = 404 then
    ⟨message.getD "Ресурс не найден.",
      some status, some .NOT_FOUND, details, false⟩
  else if status = 429 then
    ⟨message.getD "Превышен лимит запросов. Попробуйте позже.",
      some status, some .RATE_LIMITED, details, true⟩
  else if status = 500 ∨ status = 502 ∨ status = 503 ∨ status = 504 then
    ⟨message.getD "Ошибка сервера. Попробуйте позже.",
      some status, some .SERVER_ERROR, details, true⟩
  else
    ⟨message.getD ("HTTP ошибка: " ++ toString status),
      some status, some .SERVER_ERROR, details, false⟩

/-- `class TickTickValidationError`: a `TickTickApiError` with code
`VALIDATION_ERROR`, no status, not retryable; `details` carries the
offending field name when the source attaches one. -/
def TickTickValidationError (message : String) (field : Option String) :
    TickTickApiError :=
  ⟨message, Option.none, some .VALIDATION_ERROR, field, false⟩

/-! ## `src/utils/validators.ts`: field validators -/

namespace Validators

/-- `validatePriority`: `[0, 1, 3, 5].includes(priority)`. -/
def validatePriority (priority : Nat) : Bool :=
  priority = 0 ∨ priority = 1 ∨ priority = 3 ∨ priority = 5

/-- `validateTaskStatus`: `[0, 2].includes(status)`. -/
def validateTaskStatus (status : Nat) : Bool := status = 0 ∨ status = 2

/-- `validateSubtaskStatus`: `[0, 1].includes(status)`. -/
def validateSubtaskStatus (status : Nat) : Bool := status = 0 ∨ status = 1

/-- `validateProjectColor`: non-empty and matches `/^#[0-9A-Fa-f]{6}$/`. -/
def validateProjectColor (color : String) : Bool :=
  color ≠ "" &&
    match color.toList with
    | ['#', a, b, c, d, e, f] =>
        isHexDig a && isHexDig b && isHexDig c && isHexDig d && isHexDig e &&
          isHexDig f
    | _ => false

/-- `validateViewMode`: `["list", "kanban", "timeline"].includes(viewMode)`. -/
def validateViewMode (viewMode : String) : Bool :=
  viewMode = "list" ∨ viewMode = "kanban" ∨ viewMode = "timeline"

/-- `validateProjectKind`: `["TASK", "NOTE"].includes(kind)`. -/
def validateProjectKind (kind : String) : Bool :=
  kind = "TASK" ∨ kind = "NOTE"

/-- `validateTimeZone`: falsy names are invalid, otherwise the platform's
`Intl.DateTimeFormat` decides; the platform time-zone database is the
parameter `isTz`. -/
def validateTimeZone (isTz : String → Bool) (timeZone : String) : Bool :=
  if timeZone = "" then false else isTz timeZone

end Validators

/-! ## `validateRRule` (date-utils.ts): recurrence-rule validation -/

/-- First-match semantics of a regex `KEY([class]+)`: scan for the first
position where `key` is followed by at least one character of the class,
and return the maximal such run (the capture). -/
def scanCapture (key : List Char) (inClass : Char → Bool) :
    List Char → Option (List Char)
  | [] => none
  | c :: rest =>
      if startsWithList key (c :: rest) then
        match ((c :: rest).drop key.length).takeWhile inClass with
        | [] => scanCapture key inClass rest
        | cap => some cap
      else scanCapture key inClass rest

/-- `UNTIL` value format `/^\d{8}T\d{6}Z$/`. -/
def untilFormatOk : List Char → Bool
  | [a, b, c, d, e, f, g, h, 'T', i, j, k, l, m, n, 'Z'] =>
      isDig a && isDig b && isDig c && isDig d && isDig e && isDig f &&
        isDig g && isDig h && isDig i && isDig j && isDig k && isDig l &&
        isDig m && isDig n
  | _ => false

/-- The seven two-letter weekday codes. -/
def validDays : List String := ["MO", "TU", "WE", "TH", "FR", "SA", "SU"]

/-- `validateRRule` from date-utils.ts, with the source's early returns. -/
def validateRRule (rrule : String) : Bool :=
  if rrule = "" then false
  else if ¬startsWithStr rrule "RRULE:" then false
  else if ¬containsSub rrule "FREQ=" then false
  else
    (match scanCapture "FREQ=".toList (fun c => c ≠ ';') rrule.toList with
     | some freq =>
         decide ((freq.asString = "DAILY" ∨ freq.asString = "WEEKLY" ∨
           freq.asString = "MONTHLY" ∨ freq.asString = "YEARLY"))
     | none => true) &&
    (match scanCapture "INTERVAL=".toList isDig rrule.toList with
     | some digs =>
         match parseIntJs digs.asString with
         | some interval => decide (1 ≤ interval)
         | none => false
     | none => true) &&
    (match scanCapture "COUNT=".toList isDig rrule.toList with
     | some digs =>
         match parseIntJs digs.asString with
         | some count => decide (1 ≤ count)
         | none => false
     | none => true) &&
    (match scanCapture "UNTIL=".toList (fun c => c ≠ ';') rrule.toList with
     | some until2 => untilFormatOk until2
     | none => true) &&
    (match scanCapture "BYDAY=".toList (fun c => c ≠ ';') rrule.toList with
     | some byday =>
         (splitStr ',' byday.asString).all (fun day => validDays.contains day)
     | none => true) &&
    (match scanCapture "BYMONTHDAY=".toList (fun c => c ≠ ';') rrule.toList with
     | some bymonthday =>
         (splitStr ',' bymonthday.asString).all (fun day =>
           match parseIntJs day with
           | some dayNum =>
               decide (dayNum ≤ 31 ∧ -31 ≤ dayNum ∧ dayNum ≠ 0)
           | none => false)
     | none => true)

/-! ## Data model (`src/types/ticktick.ts`) -/

namespace TickTick

/-- `ChecklistItem` (`id` is server-assigned, hence absent on create
payloads and mandatory on update payloads). -/
structure ChecklistItem where
  id : Option String
  title : String
  status : Option Nat
  completedTime : Option String
  isAllDay : Option Bool
  sortOrder : Option Int
  startDate : Option String
  timeZone : Option String
deriving DecidableEq, Repr

/-- `Task`. -/
structure Task where
  id : String
  projectId : String
  title : String
  content : Option String
  desc : Option String
  isAllDay : Option Bool
  startDate : Option String
  dueDate : Option String
  timeZone : Option String
  reminders : Option (List String)
  repeatFlag : Option String
  priority : Option Nat
  status : Option Nat
  completedTime : Option String
  sortOrder : Option Int
  items : Option (List ChecklistItem)
deriving DecidableEq, Repr

/-- `Project`. -/
structure Project where
  id : String
  name : String
  color : Option String
  sortOrder : Option Int
  closed : Option Bool
  groupId : Option String
  viewMode : Option String
  permission : Option String
  kind : Option String
deriving DecidableEq, Repr

/-- `Column`. -/
structure Column where
  id : String
  projectId : String
  name : String
  sortOrder : Int
deriving DecidableEq, Repr

/-- `ProjectData`. -/
structure ProjectData where
  project : Project
  tasks : List Task
  columns : List Column
deriving DecidableEq, Repr

/-- `CreateTaskRequest`. -/
structure CreateTaskRequest where
  title : String
  projectId : String
  content : Option String
  desc : Option String
  isAllDay : Option Bool
  startDate : Option String
  dueDate : Option String
  timeZone : Option String
  reminders : Option (List String)
  repeatFlag : Option String
  priority : Option Nat
  sortOrder : Option Int
  items : Option (List ChecklistItem)
deriving DecidableEq, Repr

/-- `UpdateTaskRequest`. -/
structure UpdateTaskRequest where
  id : Option String
  projectId : Option String
  title : Option String
  content : Option String
  desc : Option String
  isAllDay : Option Bool
  startDate : Option String
  dueDate : Option String
  timeZone : Option String
  reminders : Option (List String)
  repeatFlag : Option String
  priority : Option Nat
  sortOrder : Option Int
  items : Option (List ChecklistItem)
deriving DecidableEq, Repr

/-- `CreateProjectRequest`. -/
structure CreateProjectRequest where
  name : String
  color : Option String
  sortOrder : Option Int
  viewMode : Option String
  kind : Option String
deriving DecidableEq, Repr

/-- `UpdateProjectRequest`. -/
structure UpdateProjectRequest where
  name : Option String
  color : Option String
  sortOrder : Option Int
  viewMode : Option String
  kind : Option String
deriving DecidableEq, Repr

end TickTick

open TickTick

/-- The outbound HTTP request a façade method hands to the request engine
(`makeAuthenticatedRequest(endpoint, { method, body })`): reaching it means
validation passed and exactly this network call is issued. -/
structure ApiCall (β : Type) where
  endpoint : String
  method : String
  body : β
deriving DecidableEq, Repr

/-! ## Domain façade (`TickTickClient`, part_003 revision): validation of
mutating calls -/

/-- JS truthiness of `x?.trim()` for an optional string. -/
def jsTruthyTrim : Option String → Bool
  | some s => trimJs s ≠ ""
  | none => false

/-- `TickTickClient.createProject`. -/
def createProject (project : CreateProjectRequest) :
    Except TickTickApiError (ApiCall CreateProjectRequest) := do
  if trimJs project.name = "" then
    throw (TickTickValidationError "Название проекта обязательно" Option.none)
  if jsTruthy project.color ∧
      ¬Validators.validateProjectColor (project.color.getD "") then
    throw (TickTickValidationError
      ("Невалидный цвет проекта: " ++ project.color.getD "" ++
        ". Ожидается формат #RRGGBB") (some "color"))
  if jsTruthy project.viewMode ∧
      ¬Validators.validateViewMode (project.viewMode.getD "") then
    throw (TickTickValidationError
      ("Невалидный режим отображения: " ++ project.viewMode.getD "" ++
        ". Допустимые значения: list, kanban, timeline") (some "viewMode"))
  if jsTruthy project.kind ∧
      ¬Validators.validateProjectKind (project.kind.getD "") then
    throw (TickTickValidationError
      ("Невалидный тип проекта: " ++ project.kind.getD "" ++
        ". Допустимые значения: TASK, NOTE") (some "kind"))
  pure ⟨"/project", "POST", project⟩

/-- `TickTickClient.updateProject`. -/
def updateProject (projectId : String) (project : UpdateProjectRequest) :
    Except TickTickApiError (ApiCall UpdateProjectRequest) := do
  if trimJs projectId = "" then
    throw (TickTickValidationError "ID проекта обязателен" Option.none)
  (match project.name with
   | some n =>
       if trimJs n = "" then
         throw (TickTickValidationError
           "Название проекта не может быть пустым" Option.none)
       else pure ()
   | none => pure ())
  if jsTruthy project.color ∧
      ¬Validators.validateProjectColor (project.color.getD "") then
    throw (TickTickValidationError
      ("Невалидный цвет проекта: " ++ project.color.getD "" ++
        ". Ожидается формат #RRGGBB") (some "color"))
  if jsTruthy project.viewMode ∧
      ¬Validators.validateViewMode (project.viewMode.getD "") then
    throw (TickTickValidationError
      ("Невалидный режим отображения: " ++ project.viewMode.getD "" ++
        ". Допустимые значения: list, kanban, timeline") (some "viewMode"))
  if jsTruthy project.kind ∧
      ¬Validators.validateProjectKind (project.kind.getD "") then
    throw (TickTickValidationError
      ("Невалидный тип проекта: " ++ project.kind.getD "" ++
        ". Допустимые значения: TASK, NOTE") (some "kind"))
  pure ⟨"/project/" ++ projectId, "POST", project⟩

/-- Checklist-item validation loop of `createTask` (index-carrying; items
are validated in order and their `startDate` is normalized in place). -/
def validateCreateItems (isTz : String → Bool) (i : Nat) :
    List ChecklistItem → Except TickTickApiError (List ChecklistItem)
  | [] => .ok []
  | item :: rest => do
      if trimJs item.title = "" then
        throw (TickTickValidationError
          ("Название подзадачи " ++ toString (i + 1) ++ " обязательно")
          (some ("items[" ++ toString i ++ "].title")))
      let sd ←
        (if jsTruthy item.startDate then
          match Validators.formatDateToISO8601 (item.startDate.getD "") with
          | .ok s => pure (some s)
          | .error _ =>
              throw (TickTickValidationError
                ("Невалидная дата начала подзадачи " ++ toString (i + 1) ++
                  ": " ++ item.startDate.getD "")
                (some ("items[" ++ toString i ++ "].startDate")))
        else pure item.startDate)
      if jsTruthy item.timeZone ∧
          ¬Validators.validateTimeZone isTz (item.timeZone.getD "") then
        throw (TickTickValidationError
          ("Невалидная временная зона подзадачи " ++ toString (i + 1) ++
            ": " ++ item.timeZone.getD "")
          (some ("items[" ++ toString i ++ "].timeZone")))
      let rest2 ← validateCreateItems isTz (i + 1) rest
      pure ({ item with startDate := sd } :: rest2)

/-- Checklist-item validation loop of `updateTask` (additionally requires
each item's `id`). -/
def validateUpdateItems (isTz : String → Bool) (i : Nat) :
    List ChecklistItem → Except TickTickApiError (List ChecklistItem)
  | [] => .ok []
  | item :: rest => do
      if ¬jsTruthyTrim item.id then
        throw (TickTickValidationError
          ("ID подзадачи " ++ toString (i + 1) ++ " обязателен для обновления")
          (some ("items[" ++ toString i ++ "].id")))
      if trimJs item.title = "" then
        throw (TickTickValidationError
          ("Название подзадачи " ++ toString (i + 1) ++ " обязательно")
          (some ("items[" ++ toString i ++ "].title")))
      let sd ←
        (if jsTruthy item.startDate then
          match Validators.formatDateToISO8601 (item.startDate.getD "") with
          | .ok s => pure (some s)
          | .error _ =>
              throw (TickTickValidationError
                ("Невалидная дата начала подзадачи " ++ toString (i + 1) ++
                  ": " ++ item.startDate.getD "")
                (some ("items[" ++ toString i ++ "].startDate")))
        else pure item.startDate)
      if jsTruthy item.timeZone ∧
          ¬Validators.validateTimeZone isTz (item.timeZone.getD "") then
        throw (TickTickValidationError
          ("Невалидная временная зона подзадачи " ++ toString (i + 1) ++
            ": " ++ item.timeZone.getD "")
          (some ("items[" ++ toString i ++ "].timeZone")))
      let rest2 ← validateUpdateItems isTz (i + 1) rest
      pure ({ item with startDate := sd } :: rest2)

/-- `TickTickClient.createTask`: required fields, per-field validation and
date normalization, then the `POST /task` call.  Note: there is no
comparison between `startDate` and `dueDate`. -/
def createTask (isTz : String → Bool) (task : CreateTaskRequest) :
    Except TickTickApiError (ApiCall CreateTaskRequest) := do
  if trimJs task.title = "" then
    throw (TickTickValidationError "Название задачи обязательно" Option.none)
  if trimJs task.projectId = "" then
    throw (TickTickValidationError "ID проекта обязателен" Option.none)
  let startDate ←
    (if jsTruthy task.startDate then
      match Validators.formatDateToISO8601 (task.startDate.getD "") with
      | .ok s => pure (some s)
      | .error _ =>
          throw (TickTickValidationError
            ("Невалидная дата начала: " ++ task.startDate.getD "")
            (some "startDate"))
    else pure task.startDate)
  let dueDate ←
    (if jsTruthy task.dueDate then
      match Validators.formatDateToISO8601 (task.dueDate.getD "") with
      | .ok s => pure (some s)
      | .error _ =>
          throw (TickTickValidationError
            ("Невалидная дата окончания: " ++ task.dueDate.getD "")
            (some "dueDate"))
    else pure task.dueDate)
  if jsTruthy task.timeZone ∧
      ¬Validators.validateTimeZone isTz (task.timeZone.getD "") then
    throw (TickTickValidationError
      ("Невалидная временная зона: " ++ task.timeZone.getD "")
      (some "timeZone"))
  (match task.priority with
   | some p =>
       if ¬Validators.validatePriority p then
         throw (TickTickValidationError
           ("Невалидный приоритет: " ++ toString p ++
             ". Допустимые значения: 0, 1, 3, 5") (some "priority"))
       else pure ()
   | none => pure ())
  let items ←
    (match task.items with
     | some l => do
         let l2 ← validateCreateItems isTz 0 l
         pure (some l2)
     | none => pure Option.none)
  pure ⟨"/task", "POST",
    { task with startDate := startDate, dueDate := dueDate, items := items }⟩

/-- `TickTickClient.updateTask`. -/
def updateTask (isTz : String → Bool) (taskId : String)
    (task : UpdateTaskRequest) :
    Except TickTickApiError (ApiCall UpdateTaskRequest) := do
  if trimJs taskId = "" then
    throw (TickTickValidationError "ID задачи обязателен" Option.none)
  if ¬jsTruthyTrim task.id then
    throw (TickTickValidationError
      "ID задачи в теле запроса обязателен" Option.none)
  if ¬jsTruthyTrim task.projectId then
    throw (TickTickValidationError "ID проекта обязателен" Option.none)
  let startDate ←
    (if jsTruthy task.startDate then
      match Validators.formatDateToISO8601 (task.startDate.getD "") with
      | .ok s => pure (some s)
      | .error _ =>
          throw (TickTickValidationError
            ("Невалидная дата начала: " ++ task.startDate.getD "")
            (some "startDate"))
    else pure task.startDate)
  let dueDate ←
    (if jsTruthy task.dueDate then
      match Validators.formatDateToISO8601 (task.dueDate.getD "") with
      | .ok s => pure (some s)
      | .error _ =>
          throw (TickTickValidationError
            ("Невалидная дата окончания: " ++ task.dueDate.getD "")
            (some "dueDate"))
    else pure task.dueDate)
  if jsTruthy task.timeZone ∧
      ¬Validators.validateTimeZone isTz (task.timeZone.getD "") then
    throw (TickTickValidationError
      ("Невалидная временная зона: " ++ task.timeZone.getD "")
      (some "timeZone"))
  (match task.priority with
   | some p =>
       if ¬Validators.validatePriority p then
         throw (TickTickValidationError
           ("Невалидный приоритет: " ++ toString p ++
             ". Допустимые значения: 0, 1, 3, 5") (some "priority"))
       else pure ()
   | none => pure ())
  let items ←
    (match task.items with
     | some l => do
         let l2 ← validateUpdateItems isTz 0 l
         pure (some l2)
     | none => pure Option.none)
  pure ⟨"/task/" ++ taskId, "POST",
    { task with startDate := startDate, dueDate := dueDate, items := items }⟩

/-! ## Resilient request engine (`makeAuthenticatedRequest`, part_003) -/

/-- What one `fetch` attempt produced, as visible to the engine: a
successful response (with headers and body text), a non-ok response (with
status and, when the error body JSON-decodes to an object carrying one,
its `errorCode` string), or a thrown error (name and message). -/
inductive FetchResult where
  | success (status : Nat) (contentLength : Option String)
      (contentType : Option String) (body : String)
  | httpError (status : Nat) (bodyText : String) (errorCode : Option String)
  | thrown (name : String) (msg : String)
deriving DecidableEq, Repr

/-- The observable outcome of one logical engine call: number of `fetch`
attempts actually made, the backoff delays slept between them, and the
final result (parsed JSON of type `J`, an empty result, or the typed
error). -/
structure RequestTrace (J : Type) where
  attempts : Nat
  delays : List Nat
  result : Except TickTickApiError (Option J)
deriving DecidableEq, Repr

/-- `ct?.includes(sub)` with JS optional chaining (`undefined` is falsy). -/
def ctIncludes (ct : Option String) (sub : String) : Bool :=
  match ct with
  | some s => containsSub s sub
  | none => false

/-- The human-readable hint the engine synthesizes for 404s and permanent
500s on task/project lookup paths (message text only; the error kind is
untouched). -/
def enhancedMessageFor (endpoint : String) (status : Nat)
    (errorCode : Option String) : String :=
  if status = 404 then
    if containsSub endpoint "/project/" ∧ containsSub endpoint "/task/" then
      let pathParts := splitStr '/' endpoint
      "Задача с ID \"" ++ pathParts.getD 4 "undefined" ++
        "\" не найдена в проекте \"" ++ pathParts.getD 2 "undefined" ++
        "\". Проверьте правильность ID или используйте get_all_projects_with_tasks для получения актуальных ID."
    else if containsSub endpoint "/project/" then
      "Проект с ID \"" ++ (splitStr '/' endpoint).getD 2 "undefined" ++
        "\" не найден. Используйте get_projects для получения списка доступных проектов."
    else "Ресурс не найден. Проверьте правильность ID."
  else if status = 500 ∧ errorCode = some "unknown_exception" then
    if containsSub endpoint "/project/" ∧ containsSub endpoint "/task/" then
      let pathParts := splitStr '/' endpoint
      "Внутренняя ошибка сервера при работе с задачей \"" ++
        pathParts.getD 4 "undefined" ++ "\" в проекте \"" ++
        pathParts.getD 2 "undefined" ++
        "\". Возможные причины: неверный ID проекта или задачи, задача уже завершена, или нет прав доступа. Используйте get_all_projects_with_tasks для проверки актуальных ID."
    else
      "Внутренняя ошибка сервера. Проверьте правильность параметров запроса."
  else ""

/-- Classification of a thrown (non-HTTP) failure: an aborted in-flight
call (`AbortError`, i.e. the client-side timeout) becomes a retryable
`TIMEOUT_ERROR`; everything else becomes a `NETWORK_ERROR` that is
retryable exactly when the message mentions `fetch`. -/
def classifyThrown (timeout : Nat) (name msg : String) : TickTickApiError :=
  if name = "AbortError" then
    ⟨"Превышено время ожидания (" ++ toString timeout ++ "ms): " ++ msg,
      Option.none, some .TIMEOUT_ERROR, some msg, true⟩
  else
    ⟨"Ошибка сети: " ++ msg, Option.none, some .NETWORK_ERROR, some msg,
      containsSub msg "fetch"⟩

/-- Success-path body handling: `204`, `content-length: 0` or a content
type that is neither JSON nor `text/*` yield an empty result without
touching the body; a blank body yields an empty result; otherwise the body
is parsed and a parse failure raises a non-retryable error that reuses the
`SERVER_ERROR` code (the error enum has no dedicated parse-error member). -/
def successPath {J : Type} (parse : String → Option J) (status : Nat)
    (contentLength contentType : Option String) (body : String) :
    Except TickTickApiError (Option J) :=
  if status = 204 ∨ contentLength = some "0" ∨
      (¬ctIncludes contentType "application/json" = true ∧
        ¬ctIncludes contentType "text/" = true) then
    .ok Option.none
  else if trimJs body = "" then .ok Option.none
  else
    match parse body with
    | some j => .ok (some j)
    | none =>
        .error ⟨"Ошибка парсинга ответа сервера", some status,
          some .SERVER_ERROR, some (takeStr 200 body), false⟩

/-- One engine call with bounded retries. `fuel` is only the structural
recursion measure; it is initialized to `maxRetries - retryCount`, which
the guard `retryCount < maxRetries` never lets run out. -/
def marAux {J : Type} (parse : String → Option J) (env : Nat → FetchResult)
    (endpoint : String) (timeout : Nat) :
    Nat → Nat → RequestTrace J
  | fuel, retryCount =>
    let retryDelay := min (1000 * 2 ^ retryCount) 10000
    match env retryCount with
    | .success status cl ct body =>
        ⟨1, [], successPath parse status cl ct body⟩
    | .httpError status bodyText errorCode =>
        let enhanced := enhancedMessageFor endpoint status errorCode
        let apiError := TickTickApiError.fromHttpStatus status
          (if enhanced = "" then Option.none else some enhanced)
          (some bodyText)
        if (apiError.retryable = true ∧ status ≠ 404 ∧
            ¬(status = 500 ∧ errorCode = some "unknown_exception")) ∧
            retryCount < 3 then
          match fuel with
          | f + 1 =>
              let rest := marAux parse env endpoint timeout f (retryCount + 1)
              ⟨rest.attempts + 1, retryDelay :: rest.delays, rest.result⟩
          | 0 => ⟨1, [], .error apiError⟩
        else ⟨1, [], .error apiError⟩
    | .thrown name msg =>
        let nerr := classifyThrown timeout name msg
        if nerr.retryable = true ∧ retryCount < 3 then
          match fuel with
          | f + 1 =>
              let rest := marAux parse env endpoint timeout f (retryCount + 1)
              ⟨rest.attempts + 1, retryDelay :: rest.delays, rest.result⟩
          | 0 => ⟨1, [], .error nerr⟩
        else ⟨1, [], .error nerr⟩

/-- `makeAuthenticatedRequest` with `maxRetries = 3`: the observable trace
of one logical call started at `retryCount` against an environment `env`
giving each attempt's `fetch` outcome. -/
def makeAuthenticatedRequest {J : Type} (parse : String → Option J)
    (env : Nat → FetchResult) (endpoint : String) (timeout : Nat)
    (retryCount : Nat) : RequestTrace J :=
  marAux parse env endpoint timeout (3 - retryCount) retryCount

/-! ## `getAllProjectsWithTasks` (aggregate read) -/

/-- Content truncation applied to each task in the aggregate read. -/
def truncateTask (task : Task) : Task :=
  { task with
    content :=
      match task.content with
      | some c =>
          if c ≠ "" ∧ 200 < c.length then some (takeStr 200 c ++ "...")
          else some c
      | none => Option.none }

/-- The `for`-loop of `getAllProjectsWithTasks`, pushing one `ProjectData`
per project onto the accumulator: the fetched data (with task content
truncated) on success, or the empty-tasks placeholder when the per-project
fetch failed. -/
def gapwLoop (fetchData : String → Except TickTickApiError ProjectData)
    (acc : List ProjectData) : List Project → List ProjectData
  | [] => acc
  | p :: rest =>
      gapwLoop fetchData
        (acc ++ [match fetchData p.id with
          | .ok pd => { pd with tasks := pd.tasks.map truncateTask }
          | .error _ => ⟨p, [], []⟩]) rest

/-- `TickTickClient.getAllProjectsWithTasks`, given the outcome of the
initial project listing and the per-project `getProjectWithData` results. -/
def getAllProjectsWithTasks
    (fetchData : String → Except TickTickApiError ProjectData)
    (projects : List Project) : List ProjectData :=
  gapwLoop fetchData [] projects

def c1req : CreateTaskRequest :=
  ⟨"Test", "p1", Option.none, Option.none, Option.none,
    some "2024-01-02T00:00:00+0000", some "2024-01-01T00:00:00+0000",
    Option.none, Option.none, Option.none, Option.none, Option.none,
    Option.none⟩

def c6content : String := (List.replicate 201 'a').asString

def c6task : Task :=
  ⟨"t1", "p1", "Long toask", some c6content, Option.none, Option.none,
    Option.none, Option.none, Option.none, Option.none, Option.none,
    Option.none, Option.none, Option.none, Option.none, Option.none⟩

def c6proj (i : String) : Project :=
  ⟨i, "Project " ++ i, Option.none, Option.none, Option.none, Option.none,
    Option.none, Option.none, Option.none⟩

def c6fetch : String → Except TickTickApiError ProjectData := fun pid =>
  if pid = "p2" then
    .error (TickTickApiError.fromHttpStatus 500 Option.none Option.none)
  else .ok ⟨c6proj pid, [c6task], []⟩

theorem century_facts (doe : Nat) (h : doe < 146097) :
    centuryOf doe ≤ 3 ∧ 146097 * centuryOf doe / 4 ≤ doe ∧ d1Of doe ≤ 36524 := by
  unfold d1Of centuryOf; omega

theorem year_facts (doe : Nat) (h : doe < 146097) :
    y1Of doe ≤ 99 ∧ 1461 * y1Of doe / 4 ≤ d1Of doe ∧ d2Of doe ≤ 365 := by
  have := century_facts doe h
  unfold d2Of y1Of; omega

theorem month_facts (doe : Nat) (h : doe < 146097) :
    mpOf doe ≤ 11 ∧ (153 * mpOf doe + 2) / 5 ≤ d2Of doe ∧
      1 ≤ ddOf doe ∧ ddOf doe ≤ 31 := by
  have := year_facts doe h
  unfold ddOf mpOf; omega

theorem doe_recon (doe : Nat) (h : doe < 146097) :
    146097 * centuryOf doe / 4 + 1461 * y1Of doe / 4 +
      ((153 * mpOf doe + 2) / 5 + ddOf doe - 1) = doe := by
  have h1 := century_facts doe h
  have h2 := year_facts doe h
  have h3 := month_facts doe h
  unfold ddOf at *; unfold d2Of at *; unfold d1Of at *; omega

/-- Days at or before 9999-12-31 stay in year-of-era ≤ 399. -/
theorem yc_edge (doe : Nat) (h : doe ≤ 146036) : cfdY doe ≤ 399 := by
  have h1 := century_facts doe (by omega)
  have h2 := year_facts doe (by omega)
  have h3 := month_facts doe (by omega)
  unfold cfdY
  by_cases hyc : 100 * centuryOf doe + y1Of doe ≤ 398
  · split <;> omega
  · have hc3 : centuryOf doe = 3 := by omega
    have hy99 : y1Of doe = 99 := by omega
    have hd1 : d1Of doe ≤ 36464 := by
      unfold d1Of; rw [hc3]; omega
    have hy1lb : 36159 ≤ 1461 * y1Of doe / 4 := by rw [hy99]
    have hd2 : d2Of doe ≤ 305 := by
      unfold d2Of; omega
    have hmp : mpOf doe ≤ 9 := by
      unfold mpOf; omega
    split <;> omega

/-- The last 60 days of an era (January and February of the following
400-multiple year) have year-of-era exactly 400. -/
theorem yc_top (doe : Nat) (h0 : 146037 ≤ doe) (h1 : doe < 146097) :
    cfdY doe = 400 := by
  have h2 := year_facts doe h1
  have h3 := month_facts doe h1
  have hc3 : centuryOf doe = 3 := by unfold centuryOf; omega
  have hd1 : 36465 ≤ d1Of doe ∧ d1Of doe ≤ 36524 := by
    unfold d1Of; rw [hc3]; omega
  have hy99 : y1Of doe = 99 := by unfold y1Of; omega
  have hy1v : 1461 * y1Of doe / 4 = 36159 := by rw [hy99]
  have hd2 : 306 ≤ d2Of doe := by unfold d2Of; omega
  have hmp : 10 ≤ mpOf doe := by unfold mpOf; omega
  unfold cfdY
  rw [hc3, hy99, if_pos hmp]

/-- Key algebraic step: `daysFromCivil` un-does the per-era civil fields. -/
theorem daysFromCivil_aux (era : Int) (doe : Nat) (hdoe : doe < 146097) :
    daysFromCivil (era * 400 + (cfdY doe : Int)) (cfdM doe) (ddOf doe)
      = era * 146097 + (doe : Int) - 719468 := by
  have hc := century_facts doe hdoe
  have hy := year_facts doe hdoe
  have hm := month_facts doe hdoe
  have hr := doe_recon doe hdoe
  have hycb : 100 * centuryOf doe + y1Of doe ≤ 399 := by omega
  simp only [daysFromCivil]
  by_cases hmp : mpOf doe < 10
  · have hya : cfdY doe = 100 * centuryOf doe + y1Of doe := by
      unfold cfdY; rw [if_neg (by omega)]; omega
    have hma : cfdM doe = mpOf doe + 3 := by unfold cfdM; rw [if_pos hmp]
    rw [hya, hma, if_neg (by omega : ¬(mpOf doe + 3 ≤ 2)),
      if_pos (by omega : 3 ≤ mpOf doe + 3)]
    have hmm : mpOf doe + 3 - 3 = mpOf doe := by omega
    rw [hmm, sub_zero]
    have hyq : (era * 400 + ((100 * centuryOf doe + y1Of doe : Nat) : Int)) / 400
        = era := by omega
    have hyr : ((era * 400 + ((100 * centuryOf doe + y1Of doe : Nat) : Int)) % 400).toNat
        = 100 * centuryOf doe + y1Of doe := by omega
    rw [hyq, hyr]
    have hdq : (100 * centuryOf doe + y1Of doe) / 100 = centuryOf doe := by omega
    have hdr : (100 * centuryOf doe + y1Of doe) % 100 = y1Of doe := by omega
    rw [hdq, hdr, hr]
  · have hya : cfdY doe = 100 * centuryOf doe + y1Of doe + 1 := by
      unfold cfdY; rw [if_pos (by omega)]
    have hma : cfdM doe = mpOf doe - 9 := by unfold cfdM; rw [if_neg hmp]
    rw [hya, hma, if_pos (by omega : mpOf doe - 9 ≤ 2),
      if_neg (by omega : ¬(3 ≤ mpOf doe - 9))]
    have hmm : mpOf doe - 9 + 9 = mpOf doe := by omega
    rw [hmm]
    have harr : era * 400 + ((100 * centuryOf doe + y1Of doe + 1 : Nat) : Int) - 1
        = era * 400 + ((100 * centuryOf doe + y1Of doe : Nat) : Int) := by
      push_cast; ring
    rw [harr]
    have hyq : (era * 400 + ((100 * centuryOf doe + y1Of doe : Nat) : Int)) / 400
        = era := by omega
    have hyr : ((era * 400 + ((100 * centuryOf doe + y1Of doe : Nat) : Int)) % 400).toNat
        = 100 * centuryOf doe + y1Of doe := by omega
    rw [hyq, hyr]
    have hdq : (100 * centuryOf doe + y1Of doe) / 100 = centuryOf doe := by omega
    have hdr : (100 * centuryOf doe + y1Of doe) % 100 = y1Of doe := by omega
    rw [hdq, hdr, hr]

/-- `daysFromCivil` is a left inverse of `civilFromDays`. -/
theorem daysFromCivil_civilFromDays (z : Int) :
    daysFromCivil (civilFromDays z).1 (civilFromDays z).2.1
      (civilFromDays z).2.2 = z := by
  have hdoe : ((z + 719468) % 146097).toNat < 146097 := by omega
  simp only [civilFromDays]
  rw [daysFromCivil_aux ((z + 719468) / 146097) (((z + 719468) % 146097).toNat)
    hdoe]
  omega

/-- Field bounds of the civil fields for day-of-era values, with the year
edge facts needed for the 4-digit-year span. -/
theorem civil_fields_aux (doe : Nat) (hdoe : doe < 146097) :
    cfdY doe ≤ 400 ∧ 1 ≤ cfdM doe ∧ cfdM doe ≤ 12 ∧
      1 ≤ ddOf doe ∧ ddOf doe ≤ 31 := by
  have hm := month_facts doe hdoe
  have hY : cfdY doe ≤ 400 := by
    by_cases hc : doe ≤ 146036
    · have := yc_edge doe hc; omega
    · have := yc_top doe (by omega) hdoe; omega
  have hMo : 1 ≤ cfdM doe ∧ cfdM doe ≤ 12 := by
    unfold cfdM; split <;> omega
  exact ⟨hY, hMo.1, hMo.2, hm.2.2.1, hm.2.2.2⟩

/-- Field bounds of `civilFromDays` on the span of 4-digit years
(0000-01-01 is day -719528, i.e. `z + 719468 = -60`; 9999-12-31 is day
2932896, i.e. `z + 719468 = 3652364`). -/
theorem civil_year_bounds (z : Int) (h0 : -60 <= z + 719468)
    (h1 : z + 719468 <= 3652364) :
    0 <= (civilFromDays z).1 ∧ (civilFromDays z).1 <= 9999 ∧
      1 <= (civilFromDays z).2.1 ∧ (civilFromDays z).2.1 <= 12 ∧
      1 <= (civilFromDays z).2.2 ∧ (civilFromDays z).2.2 <= 31 := by
  have hdoe : ((z + 719468) % 146097).toNat < 146097 := by omega
  simp only [civilFromDays]
  have hf := civil_fields_aux (((z + 719468) % 146097).toNat) hdoe
  refine ⟨?_, ?_, hf.2.1, hf.2.2.1, hf.2.2.2.1, hf.2.2.2.2⟩
  · by_cases hc : (z + 719468) / 146097 = -1
    · rw [hc]
      have hd37 : 146037 <= ((z + 719468) % 146097).toNat := by omega
      have := yc_top (((z + 719468) % 146097).toNat) hd37 hdoe
      omega
    · have h2 : 0 <= (z + 719468) / 146097 := by omega
      have h3 : (0:Int) <= cfdY (((z + 719468) % 146097).toNat) := by positivity
      nlinarith [h2, h3]
  · by_cases hc : (z + 719468) / 146097 = 24
    · rw [hc]
      have hd36 : ((z + 719468) % 146097).toNat <= 146036 := by omega
      have := yc_edge (((z + 719468) % 146097).toNat) hd36
      omega
    · have h2 : (z + 719468) / 146097 <= 23 := by omega
      have h3 : (z + 719468) / 146097 * 400 <= 23 * 400 := by
        have h4 : -1 <= (z + 719468) / 146097 := by omega
        nlinarith
      omega

theorem toNat_dig (n : Nat) : (dig n).toNat = 48 + n % 10 := by
  have h : n % 10 < 10 := Nat.mod_lt _ (by norm_num)
  unfold dig
  generalize hk : n % 10 = k at h
  interval_cases k <;> rfl

theorem isDig_dig (n : Nat) : isDig (dig n) = true := by
  have h2 : n % 10 < 10 := Nat.mod_lt _ (by norm_num)
  unfold dig
  generalize hk : n % 10 = k at h2
  interval_cases k <;> decide

theorem digVal_dig (n : Nat) : digVal (dig n) = n % 10 := by
  simp [digVal, toNat_dig]

theorem dig_ne_plus (n : Nat) : dig n ≠ '+' := by
  have h2 : n % 10 < 10 := Nat.mod_lt _ (by norm_num)
  unfold dig
  generalize hk : n % 10 = k at h2
  interval_cases k <;> decide

theorem dig_ne_minus (n : Nat) : dig n ≠ '-' := by
  have h2 : n % 10 < 10 := Nat.mod_lt _ (by norm_num)
  unfold dig
  generalize hk : n % 10 = k at h2
  interval_cases k <;> decide

theorem rd2_pad2 (n : Nat) (h : n < 100) (rest : List Char) :
    rd2 (pad2 n ++ rest) = some (n, rest) := by
  have h10 : 10 * (n / 10 % 10) + n % 10 = n := by omega
  simp [pad2, rd2, isDig_dig, digVal_dig, h10]

theorem rd4_pad4 (n : Nat) (h : n < 10000) (rest : List Char) :
    rd4 (pad4 n ++ rest) = some (n, rest) := by
  have h10 : 1000 * (n / 1000 % 10) + 100 * (n / 100 % 10) + 10 * (n / 10 % 10)
      + n % 10 = n := by omega
  simp [pad4, rd4, isDig_dig, digVal_dig, h10]

/-- Claim C4: the priority mapping is a total bijection between
the names (none, low, medium, high) and the ordinals (0, 1, 3, 5): the
reverse map undoes the forward map on every name; composing reverse then
forward is the identity exactly on the four mapped ordinals and the
reverse lookup is `undefined` on every other ordinal — in particular the
unmapped ordinal 2 fails rather than silently coercing. -/
theorem C4_priority_bijection :
    (∀ p : Priority, PRIORITY_REVERSE_MAP (PRIORITY_MAP p) = some p) ∧
    (∀ n : Nat, Option.map PRIORITY_MAP (PRIORITY_REVERSE_MAP n) =
      if n = 0 ∨ n = 1 ∨ n = 3 ∨ n = 5 then some n else Option.none) ∧
    PRIORITY_REVERSE_MAP 2 = Option.none := by
  refine ⟨fun p => by cases p <;> rfl, fun n => ?_, rfl⟩
  unfold PRIORITY_REVERSE_MAP
  split_ifs <;> simp_all [PRIORITY_MAP]

theorem readYearPart_pad4 (n : Nat) (h : n < 10000) (rest : List Char) :
    readYearPart (pad4 n ++ rest) = some ((n : Int), rest) := by
  have h4 := rd4_pad4 n h rest
  simp only [pad4, List.cons_append, List.nil_append] at h4 ⊢
  rw [readYearPart]
  rw [if_neg (dig_ne_plus _), if_neg (dig_ne_minus _), h4]

theorem readMonthDay_pads (m d : Nat) (hm : m < 100) (hd : d < 100)
    (rest : List Char) :
    readMonthDay ('-' :: (pad2 m ++ ('-' :: (pad2 d ++ rest))))
      = some (m, d, rest) := by
  rw [readMonthDay, rd2_pad2 m hm]
  simp only []
  rw [rd2_pad2 d hd]

theorem takeWhile_pad3 (n : Nat) :
    (pad3 n ++ ['+', '0', '0', '0', '0']).takeWhile isDig = pad3 n := by
  simp [pad3, List.takeWhile, isDig_dig]
  decide

theorem readFrac_pad3 (n : Nat) (h : n < 1000) :
    readFrac (pad3 n ++ ['+', '0', '0', '0', '0'])
      = some (n, ['+', '0', '0', '0', '0']) := by
  rw [readFrac, takeWhile_pad3]
  have hv : 100 * (n / 100 % 10) + 10 * (n / 10 % 10) + n % 10 = n := by omega
  simp [pad3, digVal_dig, hv]

theorem readOffset_plus0000 : readOffset ['+', '0', '0', '0', '0'] = some 0 := by
  decide

theorem readTime_pads (h mi s ms : Nat) (hh : h < 100) (hmi : mi < 100)
    (hs : s < 100) (hms : ms < 1000) :
    readTime ('T' :: (pad2 h ++ (':' :: (pad2 mi ++ (':' :: (pad2 s ++
        ('.' :: (pad3 ms ++ ['+', '0', '0', '0', '0']))))))))
      = some (h, mi, s, ms, 0) := by
  rw [readTime, rd2_pad2 h hh]
  simp only []
  rw [rd2_pad2 mi hmi]
  simp only []
  rw [rd2_pad2 s hs]
  simp only []
  rw [readFrac_pad3 ms hms]
  simp only []
  rw [readOffset_plus0000]

set_option maxHeartbeats 1600000 in
theorem parse_isoCore (t : Int) (h1 : -62167219200000 ≤ t)
    (h2 : t ≤ 253402300799999) :
    parseIsoChars (isoCoreChars t ++ ['+', '0', '0', '0', '0']) = some t := by
  have hdlo : -60 ≤ t / 86400000 + 719468 := by omega
  have hdhi : t / 86400000 + 719468 ≤ 3652364 := by omega
  have hb := civil_year_bounds (t / 86400000) hdlo hdhi
  have hmsod : (t % 86400000).toNat < 86400000 := by omega
  have hy4 : (civilFromDays (t / 86400000)).1.toNat < 10000 := by omega
  simp only [isoCoreChars]
  rw [if_pos ⟨hb.1, hb.2.1⟩]
  rw [List.append_assoc]
  rw [parseIsoChars, readYearPart_pad4 _ hy4]
  simp only [List.cons_append, List.append_assoc]
  rw [readMonthDay_pads _ _ (by omega) (by omega)]
  simp only []
  rw [readTime_pads _ _ _ _ (by omega) (by omega) (by omega) (by omega)]
  simp only []
  rw [finishParse, Int.toNat_of_nonneg hb.1]
  have hli := daysFromCivil_civilFromDays (t / 86400000)
  rw [if_pos ?hcond]
  case hcond =>
    refine ⟨hb.2.2.1, hb.2.2.2.1, hb.2.2.2.2.1, ?_, ?_, by omega, by omega⟩
    · rw [hli]
    · left; omega
  rw [hli]
  have ht : t / 86400000 * 86400000 +
      (((t % 86400000).toNat / 3600000 * 3600000 +
        (t % 86400000).toNat / 60000 % 60 * 60000 +
        (t % 86400000).toNat / 1000 % 60 * 1000 +
        (t % 86400000).toNat % 1000 : Nat) : Int) - 0 * 60000 = t := by
    omega
  rw [ht, if_pos (by omega)]

theorem isoRegexHead_pads (n4 a b c d e : Nat) (rest : List Char) :
    isoRegexHead (pad4 n4 ++ ('-' :: (pad2 a ++ ('-' :: (pad2 b ++ ('T' ::
        (pad2 c ++ (':' :: (pad2 d ++ (':' :: (pad2 e ++ rest)))))))))))
      = some rest := by
  simp only [pad4, pad2, List.cons_append, List.nil_append]
  rw [isoRegexHead]
  simp [isDig_dig]

set_option maxHeartbeats 1600000 in
theorem regexDU_isoCore (t : Int) (h1 : -62167219200000 ≤ t)
    (h2 : t ≤ 253402300799999) :
    isoRegexDU (isoCoreChars t ++ ['+', '0', '0', '0', '0']) = true := by
  have hdlo : -60 ≤ t / 86400000 + 719468 := by omega
  have hdhi : t / 86400000 + 719468 ≤ 3652364 := by omega
  have hb := civil_year_bounds (t / 86400000) hdlo hdhi
  simp only [isoCoreChars]
  rw [if_pos ⟨hb.1, hb.2.1⟩]
  simp only [List.cons_append, List.append_assoc]
  rw [isoRegexDU, isoRegexHead_pads]
  simp only []
  rw [takeWhile_pad3]
  simp only [pad3, List.cons_append, List.nil_append, List.length_cons,
    List.length_nil, List.drop_succ_cons, List.drop_zero]
  rfl

theorem toList_core_plus (t : Int) :
    ((isoCoreChars t).asString ++ "+0000").toList
      = isoCoreChars t ++ ['+', '0', '0', '0', '0'] := by
  have h := String.data_append (isoCoreChars t).asString "+0000"
  exact h

theorem validateISO8601Date_isoCore (t : Int) (h1 : -62167219200000 ≤ t)
    (h2 : t ≤ 253402300799999) :
    DateUtils.validateISO8601Date ((isoCoreChars t).asString ++ "+0000")
      = true := by
  have hne : (isoCoreChars t).asString ++ "+0000" ≠ "" := by
    intro hc
    have h3 := congrArg String.toList hc
    rw [toList_core_plus] at h3
    simp at h3
  rw [DateUtils.validateISO8601Date]
  rw [toList_core_plus] at *
  rw [regexDU_isoCore t h1 h2]
  unfold parseJsDate
  rw [toList_core_plus, parse_isoCore t h1 h2]
  simp [hne]

/-- Claim C8 (amended): `wireToTimestamp (timestampToWire t) = t` holds
exactly on the time values whose UTC year has four digits, i.e.
`-62167219200000 ≤ t ≤ 253402300799999` (0000-01-01T00:00:00.000Z through
9999-12-31T23:59:59.999Z); outside that span `toISOString` emits an
expanded (six-digit, signed) year that `validateISO8601Date`'s regex
rejects, so the parse step throws instead of returning `t`. -/
theorem C8_amended_roundtrip (t : Int) (h1 : -62167219200000 ≤ t)
    (h2 : t ≤ 253402300799999) :
    (DateUtils.timestampToISO8601 t).bind DateUtils.iso8601ToTimestamp
      = Except.ok t := by
  rw [DateUtils.timestampToISO8601, DateUtils.formatDateToISO8601OfDate,
    if_neg (by omega)]
  show DateUtils.iso8601ToTimestamp _ = _
  rw [DateUtils.iso8601ToTimestamp]
  rw [if_pos (by exact_mod_cast validateISO8601Date_isoCore t h1 h2)]
  unfold parseJsDate
  rw [toList_core_plus, parse_isoCore t h1 h2]
  rfl

/-- Witness for C8 at `t = 1700000000123`. -/
theorem C8_amended_witness :
    (DateUtils.timestampToISO8601 1700000000123).bind DateUtils.iso8601ToTimestamp
      = Except.ok 1700000000123 :=
  C8_amended_roundtrip 1700000000123 (by decide) (by decide)

/-- Counterexample to C8 as stated: at `t = 253402300800000` (year
10000) the formatted wire string is `+010000-01-01T00:00:00.000+0000`,
which the parse step rejects, so the round trip returns an error rather
than `t`. -/
theorem C8_claim_counterexample :
    (DateUtils.timestampToISO8601 253402300800000).bind
        DateUtils.iso8601ToTimestamp
      ≠ Except.ok 253402300800000 := by
  have h : (DateUtils.timestampToISO8601 253402300800000).bind
      DateUtils.iso8601ToTimestamp
      = Except.error "Невалидная ISO 8601 дата: +010000-01-01T00:00:00.000+0000" := by
    rfl
  rw [h]
  exact fun hc => Except.noConfusion hc

/-- Claim C9: `validateDateRange` returns true (as a boolean, without
throwing) whenever either argument is absent (falsy); when both are
present and parseable it returns false exactly when the start instant is
strictly after the due instant; and the spec's example pair (start
2024-01-02, due 2024-01-01, both `+0000`) yields false. -/
theorem C9_validateDateRange :
    (∀ s d : Option String, jsTruthy s = false ∨ jsTruthy d = false →
        DateUtils.validateDateRange s d = .ok true) ∧
    (∀ (s d : String) (a b : Int), s ≠ "" → d ≠ "" →
        parseJsDate s = some a → parseJsDate d = some b →
        (DateUtils.validateDateRange (some s) (some d) = .ok false ↔ b < a)) ∧
    DateUtils.validateDateRange (some "2024-01-02T00:00:00+0000")
        (some "2024-01-01T00:00:00+0000") = .ok false := by
  refine ⟨?_, ?_, by decide⟩
  · intro s d h
    rw [DateUtils.validateDateRange, if_pos]
    rcases h with h | h <;> simp [h]
  · intro s d a b hs hd hpa hpb
    rw [DateUtils.validateDateRange, if_neg (by simp [jsTruthy, hs, hd])]
    simp only [Option.getD_some, hpa, hpb]
    constructor
    · intro h
      have h2 : decide (a ≤ b) = false := by
        have := congrArg (fun e => match e with | Except.ok v => v | _ => true) h
        simpa using this
      simpa using h2
    · intro h
      have h2 : decide (a ≤ b) = false := by simp; omega
      rw [h2]

theorem C7_characterization (r : String) :
    validateRRule r = true ↔
      (r ≠ "" ∧ startsWithStr r "RRULE:" = true ∧ containsSub r "FREQ=" = true ∧
       (∀ freq, scanCapture "FREQ=".toList (fun c => c ≠ ';') r.toList
            = some freq →
          freq.asString = "DAILY" ∨ freq.asString = "WEEKLY" ∨
            freq.asString = "MONTHLY" ∨ freq.asString = "YEARLY") ∧
       (∀ digs, scanCapture "INTERVAL=".toList isDig r.toList = some digs →
          ∃ n, parseIntJs digs.asString = some n ∧ 1 ≤ n) ∧
       (∀ digs, scanCapture "COUNT=".toList isDig r.toList = some digs →
          ∃ n, parseIntJs digs.asString = some n ∧ 1 ≤ n) ∧
       (∀ u, scanCapture "UNTIL=".toList (fun c => c ≠ ';') r.toList = some u →
          untilFormatOk u = true) ∧
       (∀ bd, scanCapture "BYDAY=".toList (fun c => c ≠ ';') r.toList
            = some bd →
          ∀ day ∈ splitStr ',' bd.asString, day ∈ validDays) ∧
       (∀ bm, scanCapture "BYMONTHDAY=".toList (fun c => c ≠ ';') r.toList
            = some bm →
          ∀ day ∈ splitStr ',' bm.asString,
            ∃ n, parseIntJs day = some n ∧ n ≤ 31 ∧ -31 ≤ n ∧ n ≠ 0)) := by
  rw [validateRRule]
  by_cases h1 : r = ""
  · simp [h1]
  · rw [if_neg h1]
    by_cases h2 : startsWithStr r "RRULE:"
    · rw [if_neg (by simp [h2])]
      by_cases h3 : containsSub r "FREQ="
      · rw [if_neg (by simp [h3])]
        simp only [Bool.and_eq_true]
        constructor
        · rintro ⟨⟨⟨⟨⟨hf, hi⟩, hc⟩, hu⟩, hbd⟩, hbm⟩
          refine ⟨h1, h2, h3, ?_, ?_, ?_, ?_, ?_, ?_⟩
          · intro freq hfreq
            rw [hfreq] at hf
            simp only [] at hf
            simpa using hf
          · intro digs hdigs
            rw [hdigs] at hi
            simp only [] at hi
            rcases hp : parseIntJs digs.asString with _ | n
            · rw [hp] at hi; simp at hi
            · rw [hp] at hi
              exact ⟨n, rfl, by simpa using hi⟩
          · intro digs hdigs
            rw [hdigs] at hc
            simp only [] at hc
            rcases hp : parseIntJs digs.asString with _ | n
            · rw [hp] at hc; simp at hc
            · rw [hp] at hc
              exact ⟨n, rfl, by simpa using hc⟩
          · intro u hu2
            rw [hu2] at hu
            simpa using hu
          · intro bd hbd2 day hday
            rw [hbd2] at hbd
            simp only [] at hbd
            rw [List.all_eq_true] at hbd
            have := hbd day hday
            simpa [validDays] using this
          · intro bm hbm2 day hday
            rw [hbm2] at hbm
            simp only [] at hbm
            rw [List.all_eq_true] at hbm
            have := hbm day hday
            rcases hp : parseIntJs day with _ | n
            · rw [hp] at this; simp at this
            · rw [hp] at this
              exact ⟨n, rfl, by simpa using this⟩
        · rintro ⟨-, -, -, hf, hi, hc, hu, hbd, hbm⟩
          refine ⟨⟨⟨⟨⟨?_, ?_⟩, ?_⟩, ?_⟩, ?_⟩, ?_⟩
          · rcases hs : scanCapture "FREQ=".toList (fun c => c ≠ ';') r.toList
              with _ | freq
            · rfl
            · simpa using hf freq hs
          · rcases hs : scanCapture "INTERVAL=".toList isDig r.toList
              with _ | digs
            · rfl
            · obtain ⟨n, hn, hn1⟩ := hi digs hs
              simp only []
              rw [hn]
              simpa using hn1
          · rcases hs : scanCapture "COUNT=".toList isDig r.toList
              with _ | digs
            · rfl
            · obtain ⟨n, hn, hn1⟩ := hc digs hs
              simp only []
              rw [hn]
              simpa using hn1
          · rcases hs : scanCapture "UNTIL=".toList (fun c => c ≠ ';') r.toList
              with _ | u
            · rfl
            · exact hu u hs
          · rcases hs : scanCapture "BYDAY=".toList (fun c => c ≠ ';') r.toList
              with _ | bd
            · rfl
            · simp only []
              rw [List.all_eq_true]
              intro day hday
              have := hbd bd hs day hday
              simpa [validDays] using this
          · rcases hs : scanCapture "BYMONTHDAY=".toList (fun c => c ≠ ';')
                r.toList with _ | bm
            · rfl
            · simp only []
              rw [List.all_eq_true]
              intro day hday
              obtain ⟨n, hn, h31, h31n, hn0⟩ := hbm bm hs day hday
              rw [hn]
              simp [h31, h31n, hn0]
      · rw [if_pos (by simpa using h3)]
        simp only [Bool.false_eq_true, false_iff]
        rintro ⟨-, -, hc, -⟩
        exact h3 hc
    · rw [if_pos (by simpa using h2)]
      simp only [Bool.false_eq_true, false_iff]
      rintro ⟨-, hs2, -⟩
      exact h2 hs2

theorem fromHttpStatus_retryable (s : Nat) (m d : Option String) :
    (TickTickApiError.fromHttpStatus s m d).retryable = true ↔
      (s = 429 ∨ s = 500 ∨ s = 502 ∨ s = 503 ∨ s = 504) := by
  unfold TickTickApiError.fromHttpStatus
  split_ifs <;> simp_all

theorem fromHttpStatus_status (s : Nat) (m d : Option String) :
    (TickTickApiError.fromHttpStatus s m d).status = some s := by
  unfold TickTickApiError.fromHttpStatus
  split_ifs <;> rfl

theorem fromHttpStatus_code (s : Nat) (m d : Option String) :
    (TickTickApiError.fromHttpStatus s m d).code =
      some (if s = 401 then .UNAUTHORIZED
        else if s = 403 then .FORBIDDEN
        else if s = 404 then .NOT_FOUND
        else if s = 429 then .RATE_LIMITED
        else TickTickErrorCode.SERVER_ERROR) := by
  unfold TickTickApiError.fromHttpStatus
  split_ifs <;> simp_all

theorem engine_const_http {J : Type} (parse : String → Option J)
    (ep : String) (tm status : Nat) (bt : String) (ec : Option String) :
    makeAuthenticatedRequest parse (fun _ => .httpError status bt ec) ep tm 0 =
      let enhanced := enhancedMessageFor ep status ec
      let e := TickTickApiError.fromHttpStatus status
        (if enhanced = "" then Option.none else some enhanced) (some bt)
      if (status = 429 ∨ status = 500 ∨ status = 502 ∨ status = 503 ∨
          status = 504) ∧ ¬(status = 500 ∧ ec = some "unknown_exception") then
        ⟨4, [1000, 2000, 4000], .error e⟩
      else ⟨1, [], .error e⟩ := by
  have h404 : (status = 429 ∨ status = 500 ∨ status = 502 ∨ status = 503 ∨
      status = 504) → status ≠ 404 := by omega
  by_cases hR : (status = 429 ∨ status = 500 ∨ status = 502 ∨ status = 503 ∨
      status = 504) ∧ ¬(status = 500 ∧ ec = some "unknown_exception")
  · rw [if_pos hR]
    have hret : ∀ m d, (TickTickApiError.fromHttpStatus status m d).retryable
        = true := fun m d => (fromHttpStatus_retryable status m d).mpr hR.1
    simp only [makeAuthenticatedRequest]
    rw [marAux]
    simp only []
    rw [if_pos ⟨⟨hret _ _, h404 hR.1, hR.2⟩, by norm_num⟩]
    rw [marAux]
    simp only []
    rw [if_pos ⟨⟨hret _ _, h404 hR.1, hR.2⟩, by norm_num⟩]
    rw [marAux]
    simp only []
    rw [if_pos ⟨⟨hret _ _, h404 hR.1, hR.2⟩, by norm_num⟩]
    rw [marAux]
    simp only []
    rw [if_neg ?h4]
    case h4 => rintro ⟨-, h⟩; omega
    rfl
  · rw [if_neg hR]
    simp only [makeAuthenticatedRequest]
    rw [marAux]
    simp only []
    rw [if_neg ?hng]
    case hng =>
      rintro ⟨⟨hret2, h4, hue⟩, -⟩
      rw [fromHttpStatus_retryable] at hret2
      exact hR ⟨hret2, hue⟩

theorem engine_const_thrown {J : Type} (parse : String → Option J)
    (ep : String) (tm : Nat) (name msg : String) :
    makeAuthenticatedRequest parse (fun _ => .thrown name msg) ep tm 0 =
      if name = "AbortError" ∨ containsSub msg "fetch" = true then
        ⟨4, [1000, 2000, 4000], .error (classifyThrown tm name msg)⟩
      else ⟨1, [], .error (classifyThrown tm name msg)⟩ := by
  have hret : (classifyThrown tm name msg).retryable = true ↔
      (name = "AbortError" ∨ containsSub msg "fetch" = true) := by
    unfold classifyThrown
    split_ifs <;> simp_all
  by_cases hR : name = "AbortError" ∨ containsSub msg "fetch" = true
  · rw [if_pos hR]
    simp only [makeAuthenticatedRequest]
    rw [marAux]
    simp only []
    rw [if_pos ⟨hret.mpr hR, by norm_num⟩]
    rw [marAux]
    simp only []
    rw [if_pos ⟨hret.mpr hR, by norm_num⟩]
    rw [marAux]
    simp only []
    rw [if_pos ⟨hret.mpr hR, by norm_num⟩]
    rw [marAux]
    simp only []
    rw [if_neg ?h4]
    case h4 => rintro ⟨-, h⟩; omega
    rfl
  · rw [if_neg hR]
    simp only [makeAuthenticatedRequest]
    rw [marAux]
    simp only []
    rw [if_neg ?hng]
    case hng => rintro ⟨h2, -⟩; exact hR (hret.mp h2)

theorem engine_success {J : Type} (parse : String → Option J)
    (ep : String) (tm status : Nat) (cl ct : Option String) (body : String) :
    makeAuthenticatedRequest parse (fun _ => .success status cl ct body)
        ep tm 0 = ⟨1, [], successPath parse status cl ct body⟩ := by
  simp only [makeAuthenticatedRequest]
  rw [marAux]

/-- Claim C2: retry policy of the request engine.  An HTTP error is
retried iff its status is classified retryable (429, 500, 502, 503, 504),
except that a 500 whose decoded body carries errorCode
"unknown_exception" is never retried (and a 404 is never retried — it is
not retryable to begin with); a thrown failure is retried iff classified
retryable; the delays before retry attempts 0, 1, 2 are 1000ms, 2000ms,
4000ms (min(1000·2^n, 10000)); retries are capped at 3 (4 total tries),
after which the typed error carrying the HTTP status is thrown; and a
persistent 429 is retried 3 times then fails as the rate-limited kind. -/
theorem C2_retry_policy :
    (∀ (J : Type) (parse : String → Option J) (ep : String) (tm status : Nat)
        (bt : String) (ec : Option String),
      (makeAuthenticatedRequest parse (fun _ => .httpError status bt ec)
            ep tm 0).delays =
          (if (status = 429 ∨ status = 500 ∨ status = 502 ∨ status = 503 ∨
              status = 504) ∧ ¬(status = 500 ∧ ec = some "unknown_exception")
            then [1000, 2000, 4000] else []) ∧
      (makeAuthenticatedRequest parse (fun _ => .httpError status bt ec)
            ep tm 0).attempts =
          (if (status = 429 ∨ status = 500 ∨ status = 502 ∨ status = 503 ∨
              status = 504) ∧ ¬(status = 500 ∧ ec = some "unknown_exception")
            then 4 else 1) ∧
      ∃ e, (makeAuthenticatedRequest parse (fun _ => .httpError status bt ec)
            ep tm 0).result = Except.error e ∧ e.status = some status) ∧
    (∀ (J : Type) (parse : String → Option J) (ep : String) (tm : Nat)
        (name msg : String),
      (makeAuthenticatedRequest parse (fun _ => .thrown name msg)
            ep tm 0).delays =
          (if name = "AbortError" ∨ containsSub msg "fetch" = true
            then [1000, 2000, 4000] else []) ∧
      (makeAuthenticatedRequest parse (fun _ => .thrown name msg)
            ep tm 0).result = Except.error (classifyThrown tm name msg)) ∧
    (∀ (J : Type) (parse : String → Option J) (ep : String) (tm : Nat)
        (bt : String),
      ∃ e, (makeAuthenticatedRequest parse
            (fun _ => .httpError 429 bt Option.none) ep tm 0) =
          ⟨4, [1000, 2000, 4000], Except.error e⟩ ∧
        e.code = some TickTickErrorCode.RATE_LIMITED) := by
  refine ⟨?_, ?_, ?_⟩
  · intro J parse ep tm status bt ec
    rw [engine_const_http parse ep tm status bt ec]
    by_cases hR : (status = 429 ∨ status = 500 ∨ status = 502 ∨ status = 503 ∨
        status = 504) ∧ ¬(status = 500 ∧ ec = some "unknown_exception")
    · rw [if_pos hR, if_pos hR, if_pos hR]
      exact ⟨rfl, rfl, _, rfl, fromHttpStatus_status _ _ _⟩
    · rw [if_neg hR, if_neg hR, if_neg hR]
      exact ⟨rfl, rfl, _, rfl, fromHttpStatus_status _ _ _⟩
  · intro J parse ep tm name msg
    rw [engine_const_thrown parse ep tm name msg]
    by_cases hR : name = "AbortError" ∨ containsSub msg "fetch" = true
    · rw [if_pos hR, if_pos hR]
      exact ⟨rfl, rfl⟩
    · rw [if_neg hR, if_neg hR]
      exact ⟨rfl, rfl⟩
  · intro J parse ep tm bt
    rw [engine_const_http parse ep tm 429 bt Option.none]
    rw [if_pos (by norm_num)]
    refine ⟨_, rfl, ?_⟩
    rw [fromHttpStatus_code]
    norm_num

/-- Claim C5 (amended): a client-side timeout (aborted in-flight call,
surfaced as `AbortError`) maps to the TIMEOUT_ERROR kind and is always
retryable; every other thrown failure maps to the NETWORK_ERROR kind and
is retryable exactly when its message contains "fetch" — the form
(`fetch failed`) in which the platform surfaces DNS failures and
connection resets — and the engine propagates the classified error. -/
theorem C5_amended_thrown_classification :
    ∀ (tm : Nat) (name msg : String),
      (classifyThrown tm name msg).code =
          some (if name = "AbortError" then TickTickErrorCode.TIMEOUT_ERROR
            else TickTickErrorCode.NETWORK_ERROR) ∧
      (classifyThrown tm name msg).retryable =
          (if name = "AbortError" then true else containsSub msg "fetch") ∧
      ∀ (J : Type) (parse : String → Option J) (ep : String),
        (makeAuthenticatedRequest parse (fun _ => .thrown name msg)
            ep tm 0).result = Except.error (classifyThrown tm name msg) := by
  intro tm name msg
  refine ⟨?_, ?_, ?_⟩
  · unfold classifyThrown
    split_ifs <;> rfl
  · unfold classifyThrown
    split_ifs <;> rfl
  · intro J parse ep
    rw [engine_const_thrown parse ep tm name msg]
    split_ifs <;> rfl

/-- Counterexample to C5 as stated: a thrown failure with message
`read ECONNRESET` (a connection reset not wrapped by fetch) is classified
NETWORK_ERROR but NOT retryable, and the engine fails with no retry —
refuting "every network failure … is retryable". -/
theorem C5_claim_counterexample :
    (classifyThrown 10000 "Error" "read ECONNRESET").code =
        some TickTickErrorCode.NETWORK_ERROR ∧
    (classifyThrown 10000 "Error" "read ECONNRESET").retryable = false ∧
    makeAuthenticatedRequest (fun _ => (Option.none : Option Unit))
        (fun _ => .thrown "Error" "read ECONNRESET") "/project" 10000 0 =
      ⟨1, [], Except.error (classifyThrown 10000 "Error" "read ECONNRESET")⟩ := by
  refine ⟨by decide, by decide, ?_⟩
  rw [engine_const_thrown]
  rw [if_neg (by decide)]

/-- Claim C3 (amended): on a successful response the engine returns an
empty result — without consulting the body parser — when the status is
204, the content-length header is "0", or the content type is neither
JSON nor `text/*`; it also returns an empty result when the body text is
blank; otherwise it parses the body (including for `text/*` content
types), and a parse failure yields a non-retryable error carrying the
HTTP status and the SERVER_ERROR code — the error taxonomy has no
distinct parse-error kind — which the engine does not retry. -/
theorem C3_amended_success_body :
    ∀ (J : Type) (parse : String → Option J) (status : Nat)
      (cl ct : Option String) (body ep : String) (tm : Nat),
      (status = 204 ∨ cl = some "0" ∨
          (ctIncludes ct "application/json" = false ∧
            ctIncludes ct "text/" = false) →
        successPath parse status cl ct body = .ok Option.none) ∧
      (trimJs body = "" → successPath parse status cl ct body = .ok Option.none) ∧
      (¬(status = 204 ∨ cl = some "0" ∨
          (ctIncludes ct "application/json" = false ∧
            ctIncludes ct "text/" = false)) →
        trimJs body ≠ "" → parse body = Option.none →
        successPath parse status cl ct body =
          .error ⟨"Ошибка парсинга ответа сервера", some status,
            some TickTickErrorCode.SERVER_ERROR, some (takeStr 200 body),
            false⟩) ∧
      (¬(status = 204 ∨ cl = some "0" ∨
          (ctIncludes ct "application/json" = false ∧
            ctIncludes ct "text/" = false)) →
        trimJs body ≠ "" → ∀ j, parse body = some j →
        successPath parse status cl ct body = .ok (some j)) ∧
      makeAuthenticatedRequest parse (fun _ => .success status cl ct body)
          ep tm 0 = ⟨1, [], successPath parse status cl ct body⟩ := by
  intro J parse status cl ct body ep tm
  refine ⟨?_, ?_, ?_, ?_, engine_success parse ep tm status cl ct body⟩
  · intro h
    rw [successPath, if_pos (by simp only [Bool.not_eq_true]; exact h)]
  · intro h
    rw [successPath]
    split_ifs <;> simp_all
  · intro h hb hp
    rw [successPath, if_neg (by simp only [Bool.not_eq_true]; exact h),
      if_neg hb, hp]
  · intro h hb j hp
    rw [successPath, if_neg (by simp only [Bool.not_eq_true]; exact h),
      if_neg hb, hp]

/-- Witness for C3 at concrete responses: empty JSON body, binary
content type, failing parse, succeeding parse. -/
theorem C3_amended_witness :
    successPath (fun _ => (Option.none : Option Unit)) 200 Option.none
        (some "application/json") "" = .ok Option.none ∧
    successPath (fun _ => (some () : Option Unit)) 200 Option.none
        (some "image/png") "binary" = .ok Option.none ∧
    successPath (fun _ => (Option.none : Option Unit)) 200 Option.none
        (some "application/json") "not json" =
      .error ⟨"Ошибка парсинга ответа сервера", some 200,
        some TickTickErrorCode.SERVER_ERROR, some "not json", false⟩ ∧
    successPath (fun s => (some s : Option String)) 200 Option.none
        (some "application/json") "payload" = .ok (some "payload") :=
  ⟨(C3_amended_success_body Unit _ 200 Option.none (some "application/json")
      "" "/x" 10000).2.1 (by decide),
   (C3_amended_success_body Unit _ 200 Option.none (some "image/png")
      "binary" "/x" 10000).1 (by decide),
   (C3_amended_success_body Unit _ 200 Option.none (some "application/json")
      "not json" "/x" 10000).2.2.1 (by decide) (by decide) rfl,
   (C3_amended_success_body String _ 200 Option.none (some "application/json")
      "payload" "/x" 10000).2.2.2.1 (by decide) (by decide) "payload" rfl⟩

/-- Counterexample to C3 as stated: a parse failure on a JSON success
body is reported with code SERVER_ERROR (the `TickTickErrorCode` enum has
no ResponseParseError member), and a non-empty `text/plain` success body
IS fed to the JSON parser rather than returned as an empty result. -/
theorem C3_claim_counterexample :
    (makeAuthenticatedRequest (fun _ => (Option.none : Option Unit))
        (fun _ => .success 200 Option.none (some "application/json")
          "not json") "/task" 10000 0).result =
      Except.error ⟨"Ошибка парсинга ответа сервера", some 200,
        some TickTickErrorCode.SERVER_ERROR, some "not json", false⟩ ∧
    (makeAuthenticatedRequest (fun _ => (Option.none : Option Unit))
        (fun _ => .success 200 Option.none (some "text/plain") "hello")
        "/task" 10000 0).result =
      Except.error ⟨"Ошибка парсинга ответа сервера", some 200,
        some TickTickErrorCode.SERVER_ERROR, some "hello", false⟩ := by
  constructor <;> · rw [engine_success]; rfl

theorem gapwLoop_eq (fetchData : String → Except TickTickApiError ProjectData)
    (projects : List Project) :
    ∀ acc, gapwLoop fetchData acc projects =
      acc ++ projects.map (fun p =>
        match fetchData p.id with
        | .ok pd => { pd with tasks := pd.tasks.map truncateTask }
        | .error _ => ⟨p, [], []⟩) := by
  induction projects with
  | nil => intro acc; simp [gapwLoop]
  | cons p rest ih =>
      intro acc
      rw [gapwLoop, ih]
      simp

/-- Claim C6: `getAllProjectsWithTasks` over a listing of n projects
returns exactly n `ProjectData` entries and never propagates a
per-project fetch failure (the function is total — no exception reaches
the caller): each failed project contributes the placeholder (that
project, empty task list, empty columns); each successful project
contributes its fetched data with every task's content longer than 200
characters truncated to 200 characters plus "..." and shorter content
left unchanged. -/
theorem C6_aggregate_partial_failure
    (fetchData : String → Except TickTickApiError ProjectData)
    (projects : List Project) :
    (getAllProjectsWithTasks fetchData projects).length = projects.length ∧
    getAllProjectsWithTasks fetchData projects = projects.map (fun p =>
      match fetchData p.id with
      | .ok pd => { pd with tasks := pd.tasks.map truncateTask }
      | .error _ => ⟨p, [], []⟩) ∧
    (∀ (t : Task) (c : String), t.content = some c → 200 < c.length →
      (truncateTask t).content = some (takeStr 200 c ++ "...")) ∧
    (∀ (t : Task) (c : String), t.content = some c → c.length ≤ 200 →
      (truncateTask t).content = some c) ∧
    (∀ t : Task, t.content = Option.none →
      (truncateTask t).content = Option.none) := by
  have he := gapwLoop_eq fetchData projects []
  simp only [List.nil_append] at he
  refine ⟨?_, ?_, ?_, ?_, ?_⟩
  · rw [getAllProjectsWithTasks, he, List.length_map]
  · rw [getAllProjectsWithTasks, he]
  · intro t c hc hlen
    rw [truncateTask]
    simp only [hc]
    rw [if_pos ⟨by intro h; subst h; simp at hlen, hlen⟩]
  · intro t c hc hlen
    rw [truncateTask]
    simp only [hc]
    rw [if_neg (by rintro ⟨-, h⟩; omega)]
  · intro t hc
    rw [truncateTask]
    simp only [hc]

/-- Claim C1 (amended): `createTask` performs no comparison between
`startDate` and `dueDate`.  For every request whose title and projectId
are non-blank and whose startDate and dueDate are valid wire-format
dates — in any order, including startDate strictly after dueDate —
validation succeeds and the network request is issued with both dates
normalized; `validateDateRange` exists in date-utils.ts but is never
invoked. -/
theorem C1_amended_no_date_range_check (isTz : String → Bool)
    (req : CreateTaskRequest)
    (ht : trimJs req.title ≠ "") (hp : trimJs req.projectId ≠ "")
    (s d : String) (hs : req.startDate = some s) (hd : req.dueDate = some d)
    (hvs : Validators.validateISO8601Date s = true)
    (hvd : Validators.validateISO8601Date d = true)
    (htz : req.timeZone = Option.none) (hpr : req.priority = Option.none)
    (hit : req.items = Option.none) :
    createTask isTz req = Except.ok ⟨"/task", "POST",
      { req with
        startDate :=
          some (if endsWithChar s 'Z' then s.dropRight 1 ++ "+0000" else s),
        dueDate :=
          some (if endsWithChar d 'Z' then d.dropRight 1 ++ "+0000" else d),
        items := Option.none }⟩ := by
  have hsne : s ≠ "" := by
    intro hc
    rw [hc] at hvs
    simp [Validators.validateISO8601Date] at hvs
  have hdne : d ≠ "" := by
    intro hc
    rw [hc] at hvd
    simp [Validators.validateISO8601Date] at hvd
  obtain ⟨t1, t2, t3, t4, t5, t6, t7, t8, t9, t10, t11, t12, t13⟩ := req
  simp only [] at ht hp hs hd htz hpr hit ⊢
  subst hs hd htz hpr hit
  simp [createTask, ht, hp, jsTruthy, hsne, hdne,
    Validators.formatDateToISO8601, hvs, hvd]
  rfl

/-- Counterexample to C1 as stated: with startDate
2024-01-02T00:00:00+0000 strictly after dueDate 2024-01-01T00:00:00+0000
(both parseable), `createTask` raises no ValidationError and issues the
`POST /task` network call — refuting "fails with a ValidationError …
and issues zero network calls". -/
theorem C1_claim_counterexample :
    parseJsDate "2024-01-02T00:00:00+0000" = some 1704153600000 ∧
    parseJsDate "2024-01-01T00:00:00+0000" = some 1704067200000 ∧
    (1704067200000 : Int) < 1704153600000 ∧
    createTask (fun _ => false) c1req = Except.ok ⟨"/task", "POST", c1req⟩ := by
  refine ⟨by decide, by decide, by decide, ?_⟩
  rfl

/-- Witness for C1 (amended) at the concrete out-of-order request. -/
theorem C1_amended_witness :
    createTask (fun _ => false) c1req = Except.ok ⟨"/task", "POST", c1req⟩ := by
  have h := C1_amended_no_date_range_check (fun _ => false) c1req
    (by decide) (by decide) "2024-01-02T00:00:00+0000"
    "2024-01-01T00:00:00+0000" rfl rfl (by decide) (by decide) rfl rfl rfl
  exact h

/-- Claim C10: in every mutating façade call, an optional string field
supplied as the empty string ("" — falsy in JS) is treated as absent:
color/viewMode/kind on project create/update, and
startDate/dueDate/timeZone plus checklist-item startDate/timeZone on task
create/update are not validated and raise no ValidationError, and the
empty value is forwarded unchanged in the request body — even though the
validators themselves reject the empty string (and the time-zone check
holds for EVERY platform zone database `isTz`, i.e. the validator is
never consulted). -/
theorem C10_empty_string_fields :
    (∀ name : String, trimJs name ≠ "" →
      createProject ⟨name, some "", Option.none, some "", some ""⟩ =
        Except.ok ⟨"/project", "POST",
          ⟨name, some "", Option.none, some "", some ""⟩⟩) ∧
    (∀ pid : String, trimJs pid ≠ "" →
      updateProject pid ⟨Option.none, some "", Option.none, some "", some ""⟩ =
        Except.ok ⟨"/project/" ++ pid, "POST",
          ⟨Option.none, some "", Option.none, some "", some ""⟩⟩) ∧
    (∀ (isTz : String → Bool) (title pid sub : String),
      trimJs title ≠ "" → trimJs pid ≠ "" → trimJs sub ≠ "" →
      createTask isTz ⟨title, pid, Option.none, Option.none, Option.none,
          some "", some "", some "", Option.none, Option.none, Option.none,
          Option.none, some [⟨Option.none, sub, Option.none, Option.none,
            Option.none, Option.none, some "", some ""⟩]⟩ =
        Except.ok ⟨"/task", "POST", ⟨title, pid, Option.none, Option.none,
          Option.none, some "", some "", some "", Option.none, Option.none,
          Option.none, Option.none, some [⟨Option.none, sub, Option.none,
            Option.none, Option.none, Option.none, some "", some ""⟩]⟩⟩) ∧
    (∀ (isTz : String → Bool) (tid tbid pid sub iid : String),
      trimJs tid ≠ "" → trimJs tbid ≠ "" → trimJs pid ≠ "" →
      trimJs sub ≠ "" → trimJs iid ≠ "" →
      updateTask isTz tid ⟨some tbid, some pid, Option.none, Option.none,
          Option.none, Option.none, some "", some "", some "", Option.none,
          Option.none, Option.none, Option.none,
          some [⟨some iid, sub, Option.none, Option.none, Option.none,
            Option.none, some "", some ""⟩]⟩ =
        Except.ok ⟨"/task/" ++ tid, "POST", ⟨some tbid, some pid, Option.none,
          Option.none, Option.none, Option.none, some "", some "", some "",
          Option.none, Option.none, Option.none, Option.none,
          some [⟨some iid, sub, Option.none, Option.none, Option.none,
            Option.none, some "", some ""⟩]⟩⟩) ∧
    Validators.validateProjectColor "" = false ∧
    Validators.validateViewMode "" = false ∧
    Validators.validateProjectKind "" = false ∧
    (∀ isTz : String → Bool, Validators.validateTimeZone isTz "" = false) := by
  refine ⟨?_, ?_, ?_, ?_, by decide, by decide, by decide, fun isTz => rfl⟩
  · intro name hname
    simp [createProject, hname, jsTruthy]
    all_goals rfl
  · intro pid hpid
    simp [updateProject, hpid, jsTruthy]
    all_goals rfl
  · intro isTz title pid sub ht hp hsub
    simp [createTask, ht, hp, hsub, jsTruthy, validateCreateItems]
  · intro isTz tid tbid pid sub iid h1 h2 h3 h4 h5
    simp [updateTask, h1, h2, h3, h4, h5, jsTruthy, jsTruthyTrim,
      validateUpdateItems]

/-- Witness for C10 at concrete empty-string requests. -/
theorem C10_witness :
    createProject ⟨"My project", some "", Option.none, some "", some ""⟩ =
      Except.ok ⟨"/project", "POST",
        ⟨"My project", some "", Option.none, some "", some ""⟩⟩ ∧
    updateTask (fun _ => false) "t1"
        ⟨some "t1", some "p1", Option.none, Option.none, Option.none,
          Option.none, some "", some "", some "", Option.none, Option.none,
          Option.none, Option.none,
          some [⟨some "i1", "step", Option.none, Option.none, Option.none,
            Option.none, some "", some ""⟩]⟩ =
      Except.ok ⟨"/task/" ++ "t1", "POST",
        ⟨some "t1", some "p1", Option.none, Option.none, Option.none,
          Option.none, some "", some "", some "", Option.none, Option.none,
          Option.none, Option.none,
          some [⟨some "i1", "step", Option.none, Option.none, Option.none,
            Option.none, some "", some ""⟩]⟩⟩ :=
  ⟨C10_empty_string_fields.1 "My project" (by decide),
   C10_empty_string_fields.2.2.2.1 (fun _ => false) "t1" "t1" "p1" "step"
     "i1" (by decide) (by decide) (by decide) (by decide) (by decide)⟩

set_option maxRecDepth 8192 in
/-- Witness for C6: the spec's 3-project scenario with the 2nd
project's fetch failing, plus truncation of a 201-character content. -/
theorem C6_witness :
    (getAllProjectsWithTasks c6fetch
        [c6proj "p1", c6proj "p2", c6proj "p3"]).length = 3 ∧
    getAllProjectsWithTasks c6fetch [c6proj "p1", c6proj "p2", c6proj "p3"] =
      [⟨c6proj "p1", [truncateTask c6task], []⟩, ⟨c6proj "p2", [], []⟩,
        ⟨c6proj "p3", [truncateTask c6task], []⟩] ∧
    (truncateTask c6task).content = some (takeStr 200 c6content ++ "...") :=
  ⟨(C6_aggregate_partial_failure c6fetch
      [c6proj "p1", c6proj "p2", c6proj "p3"]).1,
   by
    have h := (C6_aggregate_partial_failure c6fetch
      [c6proj "p1", c6proj "p2", c6proj "p3"]).2.1
    rw [h]
    rfl,
   (C6_aggregate_partial_failure c6fetch
      [c6proj "p1", c6proj "p2", c6proj "p3"]).2.2.1 c6task c6content rfl
     (by decide)⟩

/-- Counterexample to C7 as stated: the rule
`RRULE:FREQ=DAILY;INTERVAL=x` contains the INTERVAL parameter with the
non-numeric value `x`, yet `validateRRule` returns true — the
`/INTERVAL=(\d+)/` regex simply finds no digit run and the check is
skipped — refuting "returns false unless INTERVAL is a positive
integer". -/
theorem C7_claim_counterexample :
    containsSub "RRULE:FREQ=DAILY;INTERVAL=x" "INTERVAL=" = true ∧
    validateRRule "RRULE:FREQ=DAILY;INTERVAL=x" = true := by decide

/-- Claim C7 (amended): `validateRRule` returns true iff the rule
starts with `RRULE:`, contains `FREQ=`, the first `FREQ=` capture (if
any) is DAILY/WEEKLY/MONTHLY/YEARLY, the first digit run following
`INTERVAL=` (resp. `COUNT=`) — if any — parses to a positive integer,
the first `UNTIL=` capture (if any) matches `YYYYMMDDTHHMMSSZ`, every
comma-separated `BYDAY=` entry is one of the seven two-letter weekday
codes, and every `BYMONTHDAY=` entry parseInt-s to a nonzero integer in
[-31, 31]; parameters whose value yields no capture (e.g. `INTERVAL=` not
followed by a digit, or an empty `FREQ=` value) are ignored rather than
rejected.  In particular `RRULE:FREQ=DAILY;INTERVAL=1` is accepted and
`RRULE:FREQ=HOURLY` is rejected. -/
theorem C7_amended_validateRRule :
    (∀ r : String, validateRRule r = true ↔
      (r ≠ "" ∧ startsWithStr r "RRULE:" = true ∧ containsSub r "FREQ=" = true ∧
       (∀ freq, scanCapture "FREQ=".toList (fun c => c ≠ ';') r.toList
            = some freq →
          freq.asString = "DAILY" ∨ freq.asString = "WEEKLY" ∨
            freq.asString = "MONTHLY" ∨ freq.asString = "YEARLY") ∧
       (∀ digs, scanCapture "INTERVAL=".toList isDig r.toList = some digs →
          ∃ n, parseIntJs digs.asString = some n ∧ 1 ≤ n) ∧
       (∀ digs, scanCapture "COUNT=".toList isDig r.toList = some digs →
          ∃ n, parseIntJs digs.asString = some n ∧ 1 ≤ n) ∧
       (∀ u, scanCapture "UNTIL=".toList (fun c => c ≠ ';') r.toList = some u →
          untilFormatOk u = true) ∧
       (∀ bd, scanCapture "BYDAY=".toList (fun c => c ≠ ';') r.toList
            = some bd →
          ∀ day ∈ splitStr ',' bd.asString, day ∈ validDays) ∧
       (∀ bm, scanCapture "BYMONTHDAY=".toList (fun c => c ≠ ';') r.toList
            = some bm →
          ∀ day ∈ splitStr ',' bm.asString,
            ∃ n, parseIntJs day = some n ∧ n ≤ 31 ∧ -31 ≤ n ∧ n ≠ 0))) ∧
    validateRRule "RRULE:FREQ=DAILY;INTERVAL=1" = true ∧
    validateRRule "RRULE:FREQ=HOURLY" = false :=
  ⟨C7_characterization, by decide, by decide⟩

/-- Witness for C7 applying the characterization at
`RRULE:FREQ=DAILY;INTERVAL=1`. -/
theorem C7_amended_witness :
    validateRRule "RRULE:FREQ=DAILY;INTERVAL=1" = true :=
  (C7_amended_validateRRule.1 "RRULE:FREQ=DAILY;INTERVAL=1").mpr
    ⟨by decide, by decide, by decide,
     fun freq h => by
       rw [show scanCapture "FREQ=".toList (fun c => c ≠ ';')
           "RRULE:FREQ=DAILY;INTERVAL=1".toList = some "DAILY".toList
           from rfl, Option.some.injEq] at h
       subst h
       decide,
     fun digs h => by
       rw [show scanCapture "INTERVAL=".toList isDig
           "RRULE:FREQ=DAILY;INTERVAL=1".toList = some ['1'] from rfl,
         Option.some.injEq] at h
       subst h
       exact ⟨1, by decide, by decide⟩,
     fun digs h => by
       rw [show scanCapture "COUNT=".toList isDig
           "RRULE:FREQ=DAILY;INTERVAL=1".toList = Option.none from rfl] at h
       exact Option.noConfusion h,
     fun u h => by
       rw [show scanCapture "UNTIL=".toList (fun c => c ≠ ';')
           "RRULE:FREQ=DAILY;INTERVAL=1".toList = Option.none from rfl] at h
       exact Option.noConfusion h,
     fun bd h => by
       rw [show scanCapture "BYDAY=".toList (fun c => c ≠ ';')
           "RRULE:FREQ=DAILY;INTERVAL=1".toList = Option.none from rfl] at h
       exact Option.noConfusion h,
     fun bm h => by
       rw [show scanCapture "BYMONTHDAY=".toList (fun c => c ≠ ';')
           "RRULE:FREQ=DAILY;INTERVAL=1".toList = Option.none from rfl] at h
       exact Option.noConfusion h⟩

/-- Witness for C9: an absent start date, and the spec's concrete
example pair. -/
theorem C9_witness :
    DateUtils.validateDateRange Option.none
        (some "2024-01-01T00:00:00+0000") = .ok true ∧
    (DateUtils.validateDateRange (some "2024-01-02T00:00:00+0000")
        (some "2024-01-01T00:00:00+0000") = .ok false ↔
      (1704067200000 : Int) < 1704153600000) :=
  ⟨C9_validateDateRange.1 Option.none _ (Or.inl rfl),
   C9_validateDateRange.2.1 "2024-01-02T00:00:00+0000" "2024-01-01T00:00:00+0000"
     1704153600000 1704067200000 (by decide) (by decide) (by decide)
     (by decide)⟩

